import Mathlib

/-!
# Verification of the PurePythonPhysics pipeline

Shallow embedding of the `statistical-mechanics` pipeline:

* the bitmap encoder `save_frame_as_bmp` (particles.py) and the bitmap
  decoder `read_bmp` (frames-to-avi.py), modelled over byte lists
  (`List Nat`, entries < 256);
* the AVI muxer `create_avi` (frames-to-avi.py), modelled as a pure
  function from the list of decoded frames to the final file bytes;
* the particle engine (particles.py): `update_position`,
  `handle_wall_collisions` and `handle_particle_collisions`, modelled
  over the real numbers (the idealisation of Python floats), with the
  `random.uniform` angle of the degenerate zero-distance branch passed
  in as an explicit oracle.

Python `struct.pack` of `<I` / `<H` fields is modelled by the
little-endian digit lists `u32le` / `u16le`; `struct.unpack` on a short
read raises `struct.error`, modelled by `BmpError.structError`, while
the explicit `raise ValueError` sites are `BmpError.valueError`.
-/

namespace PurePhysics

instance {ε α : Type} [DecidableEq ε] [DecidableEq α] : DecidableEq (Except ε α) := fun x y =>
  match x, y with
  | .ok a, .ok b => if h : a = b then .isTrue (by rw [h]) else .isFalse (by simp [h])
  | .error e, .error f => if h : e = f then .isTrue (by rw [h]) else .isFalse (by simp [h])
  | .ok _, .error _ => .isFalse (by simp)
  | .error _, .ok _ => .isFalse (by simp)

/-! ## Little-endian packing helpers (`struct.pack`) -/

/-- `struct.pack '<H'`: two little-endian base-256 digits. -/
def u16le (n : Nat) : List Nat := [n % 256, n / 256 % 256]

/-- `struct.pack '<I'`: four little-endian base-256 digits. -/
def u32le (n : Nat) : List Nat :=
  [n % 256, n / 256 % 256, n / 65536 % 256, n / 16777216 % 256]

/-- `struct.unpack` of a little-endian unsigned integer from a byte list. -/
def unpackLE (bs : List Nat) : Nat := bs.foldr (fun b acc => b + 256 * acc) 0

/-- Observation helper: the little-endian 32-bit value stored at byte
position `pos` of a byte list (missing bytes read as 0). -/
def readU32 (data : List Nat) (pos : Nat) : Nat :=
  data.getD pos 0 + 256 * data.getD (pos + 1) 0 + 65536 * data.getD (pos + 2) 0 +
    16777216 * data.getD (pos + 3) 0

/-! ## Bitmap encoder: `save_frame_as_bmp` (particles.py)

The Python source uses the global `BOX_SIZE = 200` for both the width and
the height of the (square) frame; the embedding takes that configuration
constant as the parameter `w`.  The function returns the bytes written to
the file: the 54-byte header followed by the zero-padded pixel rows. -/

/-- The 54-byte `bmp_header` built by `save_frame_as_bmp` (signature,
file size, reserved, pixel offset 54, then the 40-byte DIB header). -/
def bmp_header (w : Nat) : List Nat :=
  [66, 77] ++ u32le (54 + (w * 3 + (4 - (w * 3) % 4) % 4) * w) ++ u16le 0 ++ u16le 0 ++
  u32le 54 ++ u32le 40 ++ u32le w ++ u32le w ++ u16le 1 ++ u16le 24 ++ u32le 0 ++
  u32le ((w * 3 + (4 - (w * 3) % 4) % 4) * w) ++ u32le 2835 ++ u32le 2835 ++ u32le 0 ++
  u32le 0

/-- The `bmp_data` loop of `save_frame_as_bmp`: each of the `w` rows of
the frame buffer, padded with zero bytes to `padded_row_size`. -/
def bmp_data (w : Nat) (frame_data : List Nat) : List Nat :=
  (List.range w).foldl
    (fun acc row =>
      acc ++ ((frame_data.drop (row * w * 3)).take (w * 3) ++
        List.replicate ((w * 3 + 3) / 4 * 4 - w * 3) 0))
    []

/-- `save_frame_as_bmp` from particles.py: 54-byte BMP header followed by
the pixel rows, each row padded with zero bytes to a multiple of 4.  The
bytes written to the file. -/
def save_frame_as_bmp (w : Nat) (frame_data : List Nat) : List Nat :=
  bmp_header w ++ bmp_data w frame_data

/-! ## Bitmap decoder: `read_bmp` (frames-to-avi.py) -/

/-- Error outcomes of `read_bmp`: `valueError` for the explicit
`raise ValueError` sites (including the `b, g, r = row_data[i:i+3]`
unpacking failure), `structError` for `struct.unpack` on a short read. -/
inductive BmpError where
  | valueError : BmpError
  | structError : BmpError
deriving DecidableEq

/-- `f.read(n)` at byte position `pos`: returns up to `n` bytes. -/
def readN (data : List Nat) (pos n : Nat) : List Nat := (data.drop pos).take n

/-- `struct.unpack` of one little-endian field of `n` bytes at `pos`:
Python raises `struct.error` when `f.read(n)` returned fewer than `n`
bytes. -/
def unpackAt (data : List Nat) (pos n : Nat) : Except BmpError Nat :=
  if (readN data pos n).length = n then .ok (unpackLE (readN data pos n))
  else .error .structError

/-- The inner loop of `read_bmp`'s row conversion:
`for i in range(0, len(row_data), 3): b, g, r = row_data[i:i+3]` —
swaps each 3-byte BGR group to RGB, and raises `ValueError` when the
final group has fewer than 3 bytes. -/
def swapRow : List Nat → Except BmpError (List Nat)
  | [] => .ok []
  | b :: g :: r :: rest => (swapRow rest).map fun tail => r :: g :: b :: tail
  | _ => .error .valueError

/-- The row loop of `read_bmp`, over the list of row indices: converts
each padded row slice of `raw` and concatenates the results, stopping at
the first failing row. -/
def decodeRows (raw : List Nat) (row_padded width : Nat) : List Nat → Except BmpError (List Nat)
  | [] => .ok []
  | r :: rs =>
    (swapRow (readN raw (r * row_padded) (width * 3))).bind fun row =>
      (decodeRows raw row_padded width rs).map fun rest => row ++ rest

/-- `read_bmp` from frames-to-avi.py, on the file's bytes.  Checks the
`BM` magic, unpacks the header fields (in source order: the bit-count
test only runs after all DIB fields were read), seeks to the pixel
offset and converts the rows from BGR to RGB. -/
def read_bmp (data : List Nat) : Except BmpError (List Nat) :=
  if data.take 2 ≠ [66, 77] then .error .valueError else
  (unpackAt data 2 4).bind fun _file_size =>
  (unpackAt data 6 2).bind fun _reserved1 =>
  (unpackAt data 8 2).bind fun _reserved2 =>
  (unpackAt data 10 4).bind fun offset =>
  (unpackAt data 14 4).bind fun _dib_header_size =>
  (unpackAt data 18 4).bind fun width =>
  (unpackAt data 22 4).bind fun height =>
  (unpackAt data 26 2).bind fun _planes =>
  (unpackAt data 28 2).bind fun bit_count =>
  (unpackAt data 30 4).bind fun _compression =>
  (unpackAt data 34 4).bind fun _image_size =>
  (unpackAt data 38 4).bind fun _x_ppm =>
  (unpackAt data 42 4).bind fun _y_ppm =>
  (unpackAt data 46 4).bind fun _clr_used =>
  (unpackAt data 50 4).bind fun _clr_important =>
  if bit_count ≠ 24 then .error .valueError else
  let row_padded := (width * 3 + 3) / 4 * 4
  let raw := readN data offset (row_padded * height)
  decodeRows raw row_padded width (List.range height)

/-- The BGR→RGB reinterpretation as a total function: swap the first and
third entry of every 3-byte group.  `swapRow` agrees with it on inputs
whose length is a multiple of 3. -/
def swapTriples : List Nat → List Nat
  | b :: g :: r :: rest => r :: g :: b :: swapTriples rest
  | rest => rest

/-! ## AVI muxer: `create_avi` (frames-to-avi.py)

The Python function reads the BMP frames from a directory; the embedding
takes the list of decoded frames (the `pixel_data` buffers) directly.
The only `raise` in the modelled region is the empty-input check; the
source explicitly assumes (without checking) that all frames have equal
size.  The source hardcodes `width = 200` and `height = 200`. -/

/-- Error outcome of `create_avi`: the `ValueError` raised for an empty
frame sequence. -/
inductive MuxError where
  | emptyInput : MuxError
deriving DecidableEq

/-- `pad_to_even` from frames-to-avi.py. -/
def pad_to_even (data : List Nat) : List Nat :=
  if data.length % 2 ≠ 0 then data ++ [0] else data

/-- The `avih` main-header record (14 `<I` fields).  `width` and
`height` are the hardcoded constants 200; `max_bytes_per_sec` and
`suggested_buffer_size` are derived from them. -/
def avih (num_frames frame_rate : Nat) : List Nat :=
  u32le (1000000 / frame_rate) ++ u32le (200 * 200 * 3 * frame_rate) ++ u32le 0 ++
  u32le 16 ++ u32le num_frames ++ u32le 0 ++ u32le 1 ++ u32le (200 * 200 * 3) ++
  u32le 200 ++ u32le 200 ++ u32le 0 ++ u32le 0 ++ u32le 0 ++ u32le 0

/-- The `strh` stream-header record (`<4s4sIHHIIIIIIII16s`):
`vids`, `DIB `, flags, priority, language, initial frames, scale 1,
rate, start, length, suggested buffer size, quality 0xFFFF, sample size,
zero `rcFrame`. -/
def strh (num_frames frame_rate : Nat) : List Nat :=
  [118, 105, 100, 115] ++ [68, 73, 66, 32] ++ u32le 0 ++ u16le 0 ++ u16le 0 ++
  u32le 0 ++ u32le 1 ++ u32le frame_rate ++ u32le 0 ++ u32le num_frames ++
  u32le (200 * 200 * 3) ++ u32le 65535 ++ u32le 0 ++ List.replicate 16 0

/-- The `strf` stream-format record (a 40-byte BITMAPINFOHEADER with the
hardcoded 200×200, 24-bit geometry). -/
def strf : List Nat :=
  u32le 40 ++ u32le 200 ++ u32le 200 ++ u16le 1 ++ u16le 24 ++ u32le 0 ++
  u32le (200 * 200 * 3) ++ u32le 2835 ++ u32le 2835 ++ u32le 0 ++ u32le 0

/-- `avih` chunk: tag, payload length, payload. -/
def avih_chunk (num_frames frame_rate : Nat) : List Nat :=
  [97, 118, 105, 104] ++ u32le (avih num_frames frame_rate).length ++ avih num_frames frame_rate

/-- `strh` chunk. -/
def strh_chunk (num_frames frame_rate : Nat) : List Nat :=
  [115, 116, 114, 104] ++ u32le (strh num_frames frame_rate).length ++ strh num_frames frame_rate

/-- `strf` chunk. -/
def strf_chunk : List Nat :=
  [115, 116, 114, 102] ++ u32le strf.length ++ strf

/-- The `strl` LIST. -/
def strl_list (num_frames frame_rate : Nat) : List Nat :=
  [76, 73, 83, 84] ++
  u32le (4 + (strh_chunk num_frames frame_rate).length + strf_chunk.length) ++
  [115, 116, 114, 108] ++ strh_chunk num_frames frame_rate ++ strf_chunk

/-- The `hdrl` LIST. -/
def hdrl_list (num_frames frame_rate : Nat) : List Nat :=
  [76, 73, 83, 84] ++
  u32le (4 + (avih_chunk num_frames frame_rate).length + (strl_list num_frames frame_rate).length) ++
  [104, 100, 114, 108] ++ avih_chunk num_frames frame_rate ++ strl_list num_frames frame_rate

/-- One `00dc` video-data chunk for a frame, padded to an even length. -/
def frameChunk (frame : List Nat) : List Nat :=
  pad_to_even ([48, 48, 100, 99] ++ u32le frame.length ++ frame)

/-- One `idx1` entry: chunk id `00dc`, flags 0x10 (key frame), offset. -/
def idxEntry (offset : Nat) : List Nat :=
  [48, 48, 100, 99] ++ u32le 16 ++ u32le offset

/-- The frame loop of `create_avi`: grows the `movi` payload (seeded
with the `movi` type tag), records one index entry per frame at the
offset reached so far, and advances the offset by the padded chunk
length.  Returns (movi payload, index entries, final offset). -/
def buildMovi (frames : List (List Nat)) : List Nat × List (List Nat) × Nat :=
  frames.foldl
    (fun acc frame =>
      (acc.1 ++ frameChunk frame, acc.2.1 ++ [idxEntry acc.2.2], acc.2.2 + (frameChunk frame).length))
    ([109, 111, 118, 105], [], 0)

/-- The `movi` LIST chunk. -/
def movi_chunk (frames : List (List Nat)) : List Nat :=
  [76, 73, 83, 84] ++ u32le (buildMovi frames).1.length ++ (buildMovi frames).1

/-- The `idx1` chunk: all index entries concatenated. -/
def idx1_chunk (frames : List (List Nat)) : List Nat :=
  [105, 100, 120, 49] ++ u32le ((buildMovi frames).2.1.flatten).length ++
  (buildMovi frames).2.1.flatten

/-- Everything after the RIFF tag and size field: the `AVI ` form tag,
the `hdrl` list, the `movi` list and the `idx1` chunk. -/
def aviBody (frames : List (List Nat)) (frame_rate : Nat) : List Nat :=
  [65, 86, 73, 32] ++ hdrl_list frames.length frame_rate ++ movi_chunk frames ++
  idx1_chunk frames

/-- The final content of the output file: `RIFF`, the patched size field
(total length − 8, i.e. the body length), then the body. -/
def aviFile (frames : List (List Nat)) (frame_rate : Nat) : List Nat :=
  [82, 73, 70, 70] ++ u32le (aviBody frames frame_rate).length ++ aviBody frames frame_rate

/-- `create_avi` from frames-to-avi.py, on the decoded frames: rejects
an empty frame sequence (`ValueError`), otherwise produces the file. -/
def create_avi (frames : List (List Nat)) (frame_rate : Nat) : Except MuxError (List Nat) :=
  if frames.length = 0 then .error .emptyInput
  else .ok (aviFile frames frame_rate)

/-- The sum of the padded chunk lengths of the first `i` frames: the
byte offset (relative to the start of the `movi` payload) at which the
claims place the `i`-th frame chunk. -/
def paddedSum (frames : List (List Nat)) (i : Nat) : Nat :=
  ((frames.take i).map (fun f => (frameChunk f).length)).sum

/-! ## Particle engine (particles.py)

Positions and velocities are Python floats; the embedding idealises them
as real numbers.  `math.hypot` is `Real.sqrt` of the sum of squares.
The `random.uniform(0, 2π)` angle drawn in the degenerate zero-distance
branch of `handle_particle_collisions` is passed in as an oracle
`θ : ℕ → ℕ → ℝ` indexed by the pair `(i, j)` under consideration. -/

/-- Configuration constant `BOX_SIZE = 200` (pixels). -/
def BOX_SIZE : ℝ := 200

/-- Configuration constant `PARTICLE_RADIUS = 5`. -/
def PARTICLE_RADIUS : ℝ := 5

/-- Configuration constant `TIME_STEP = 1`. -/
def TIME_STEP : ℝ := 1

/-- A particle: position `(x, y)` and velocity `(vx, vy)`. -/
structure Particle where
  x : ℝ
  y : ℝ
  vx : ℝ
  vy : ℝ

instance : Inhabited Particle := ⟨⟨0, 0, 0, 0⟩⟩

/-- `Particle.update_position`: `position += velocity * TIME_STEP`. -/
def update_position (p : Particle) : Particle :=
  { p with x := p.x + p.vx * TIME_STEP, y := p.y + p.vy * TIME_STEP }

open Classical in
/-- `Particle.handle_wall_collisions`: per axis, if the particle's edge
crossed the boundary, negate that velocity component and clamp the
coordinate into `[PARTICLE_RADIUS, BOX_SIZE - PARTICLE_RADIUS]`. -/
noncomputable def handle_wall_collisions (p : Particle) : Particle :=
  let p1 :=
    if p.x - PARTICLE_RADIUS < 0 ∨ p.x + PARTICLE_RADIUS > BOX_SIZE then
      { p with vx := p.vx * (-1),
               x := max PARTICLE_RADIUS (min p.x (BOX_SIZE - PARTICLE_RADIUS)) }
    else p
  if p1.y - PARTICLE_RADIUS < 0 ∨ p1.y + PARTICLE_RADIUS > BOX_SIZE then
    { p1 with vy := p1.vy * (-1),
              y := max PARTICLE_RADIUS (min p1.y (BOX_SIZE - PARTICLE_RADIUS)) }
  else p1

/-- `math.hypot`. -/
noncomputable def hypot (dx dy : ℝ) : ℝ := Real.sqrt (dx ^ 2 + dy ^ 2)

open Classical in
/-- The body of the inner loop of `handle_particle_collisions` for one
pair `(p1, p2)`: if the particles overlap, substitute a random unit
direction and distance `1e-6` when they coincide, skip when the
normal-projected relative velocity is positive (already separating),
otherwise exchange the normal velocity components and push the
particles apart by half the overlap each.  `θ` is the random angle the
degenerate branch would draw. -/
noncomputable def pairCollide (θ : ℝ) (p1 p2 : Particle) : Particle × Particle :=
  let dx := p1.x - p2.x
  let dy := p1.y - p2.y
  let distance := hypot dx dy
  if distance < 2 * PARTICLE_RADIUS then
    let dx := if distance = 0 then Real.cos θ else dx
    let dy := if distance = 0 then Real.sin θ else dy
    let distance := if distance = 0 then (1 / 1000000 : ℝ) else distance
    let nx := dx / distance
    let ny := dy / distance
    let dvx := p1.vx - p2.vx
    let dvy := p1.vy - p2.vy
    let dot := dvx * nx + dvy * ny
    if dot > 0 then (p1, p2)
    else
      let q1 := { p1 with vx := p1.vx - dot * nx, vy := p1.vy - dot * ny }
      let q2 := { p2 with vx := p2.vx + dot * nx, vy := p2.vy + dot * ny }
      let overlap := 2 * PARTICLE_RADIUS - distance
      ({ q1 with x := q1.x + nx * (overlap / 2), y := q1.y + ny * (overlap / 2) },
       { q2 with x := q2.x - nx * (overlap / 2), y := q2.y - ny * (overlap / 2) })
  else (p1, p2)

/-- One iteration of the double loop of `handle_particle_collisions`:
reads `particles[i]` and `particles[j]`, applies the pair response and
writes both back. -/
noncomputable def pairStep (θ : ℝ) (acc : List Particle) (i j : Nat) : List Particle :=
  let p1 := acc.getD i default
  let p2 := acc.getD j default
  let q := pairCollide θ p1 p2
  (acc.set i q.1).set j q.2

/-- `handle_particle_collisions` from particles.py: the sequential
double loop `for i in range(n): for j in range(i+1, n)` over the
particle list, mutating it in place. -/
noncomputable def handle_particle_collisions (θ : ℕ → ℕ → ℝ) (ps : List Particle) :
    List Particle :=
  (List.range ps.length).foldl
    (fun acc i =>
      (List.range' (i + 1) (ps.length - (i + 1))).foldl
        (fun acc2 j => pairStep (θ i j) acc2 i j) acc)
    ps

/-- One iteration of the main simulation loop (particles.py `main`):
every particle moves and resolves wall collisions, then the pairwise
collision pass runs over the whole population. -/
noncomputable def simulationStep (θ : ℕ → ℕ → ℝ) (ps : List Particle) : List Particle :=
  handle_particle_collisions θ (ps.map fun p => handle_wall_collisions (update_position p))

/-! ## Helper lemmas: byte-level reading -/

theorem u32le_length (n : Nat) : (u32le n).length = 4 := rfl

theorem u16le_length (n : Nat) : (u16le n).length = 2 := rfl

theorem readU32_append (l1 l2 : List Nat) (pos : Nat) (h : l1.length ≤ pos) :
    readU32 (l1 ++ l2) pos = readU32 l2 (pos - l1.length) := by
  unfold readU32
  rw [List.getD_append_right l1 l2 0 pos h,
      List.getD_append_right l1 l2 0 (pos + 1) (by omega),
      List.getD_append_right l1 l2 0 (pos + 2) (by omega),
      List.getD_append_right l1 l2 0 (pos + 3) (by omega)]
  rw [show pos + 1 - l1.length = pos - l1.length + 1 by omega,
      show pos + 2 - l1.length = pos - l1.length + 2 by omega,
      show pos + 3 - l1.length = pos - l1.length + 3 by omega]

theorem readU32_u32le (n : Nat) (rest : List Nat) :
    readU32 (u32le n ++ rest) 0 = n % 4294967296 := by
  simp [readU32, u32le, List.getD]
  omega

theorem readU32_field (pre post : List Nat) (n pos : Nat) (hpre : pre.length = pos)
    (hn : n < 4294967296) : readU32 (pre ++ (u32le n ++ post)) pos = n := by
  rw [readU32_append pre _ pos (le_of_eq hpre), hpre, Nat.sub_self, readU32_u32le,
      Nat.mod_eq_of_lt hn]

/-! ## Helper lemmas: header record lengths -/

theorem avih_length (n r : Nat) : (avih n r).length = 56 := rfl

theorem strh_length (n r : Nat) : (strh n r).length = 64 := rfl

theorem strf_length : strf.length = 40 := rfl

theorem avih_chunk_length (n r : Nat) : (avih_chunk n r).length = 64 := rfl

theorem strh_chunk_length (n r : Nat) : (strh_chunk n r).length = 72 := rfl

theorem strf_chunk_length : strf_chunk.length = 48 := rfl

theorem strl_list_length (n r : Nat) : (strl_list n r).length = 132 := rfl

/-! ## Helper lemmas: the `movi` fold and the index offsets -/

theorem paddedSum_zero (frames : List (List Nat)) : paddedSum frames 0 = 0 := rfl

theorem paddedSum_cons_succ (f : List Nat) (fs : List (List Nat)) (i : Nat) :
    paddedSum (f :: fs) (i + 1) = (frameChunk f).length + paddedSum fs i := by
  simp [paddedSum]

theorem frameChunk_length_pos (f : List Nat) : 0 < (frameChunk f).length := by
  simp only [frameChunk, pad_to_even]
  split <;> simp

theorem buildMovi_aux (frames : List (List Nat)) (movi0 : List Nat)
    (entries0 : List (List Nat)) (off0 : Nat) :
    frames.foldl
      (fun acc frame =>
        (acc.1 ++ frameChunk frame, acc.2.1 ++ [idxEntry acc.2.2],
         acc.2.2 + (frameChunk frame).length))
      (movi0, entries0, off0) =
    (movi0 ++ (frames.map frameChunk).flatten,
     entries0 ++ (List.range frames.length).map (fun i => idxEntry (off0 + paddedSum frames i)),
     off0 + paddedSum frames frames.length) := by
  induction frames generalizing movi0 entries0 off0 with
  | nil => simp [paddedSum]
  | cons f fs ih =>
    simp only [List.foldl_cons]
    rw [ih]
    refine congrArg₂ Prod.mk ?_ (congrArg₂ Prod.mk ?_ ?_)
    · simp [List.append_assoc]
    · rw [List.length_cons, List.range_succ_eq_map, List.map_cons, List.map_map,
          List.append_assoc]
      refine congrArg₂ _ rfl ?_
      refine congrArg₂ _ rfl ?_
      refine List.map_congr_left fun i hi => ?_
      simp [Function.comp, paddedSum_cons_succ, Nat.add_assoc]
    · rw [List.length_cons, paddedSum_cons_succ, Nat.add_assoc]

theorem paddedSum_lt_succ (frames : List (List Nat)) (i : Nat) (h : i < frames.length) :
    paddedSum frames i < paddedSum frames (i + 1) := by
  have hL : i < (List.map (fun f => (frameChunk f).length) frames).length := by simpa using h
  unfold paddedSum
  rw [List.map_take, List.map_take, List.sum_take_succ _ i hL]
  have hpos : 0 < (List.map (fun f => (frameChunk f).length) frames)[i] := by
    simp [frameChunk_length_pos]
  omega

theorem paddedSum_strict_mono (frames : List (List Nat)) (i j : Nat) (hij : i < j)
    (hj : j ≤ frames.length) : paddedSum frames i < paddedSum frames j := by
  induction j with
  | zero => omega
  | succ k ih =>
    rcases Nat.lt_succ_iff_lt_or_eq.mp hij with hk | hk
    · exact (ih hk (by omega)).trans (paddedSum_lt_succ frames k (by omega))
    · subst hk; exact paddedSum_lt_succ frames i (by omega)

/-! ## Claim C4: frame-size mismatch handling in the muxer -/

/-- Claim C4 (corrected): `create_avi` performs no frame-size
consistency check at all.  For every input sequence that contains two
frames of different byte lengths (and in fact for every non-empty
input), it succeeds and produces a container file instead of rejecting
the input with a dimension-mismatch error. -/
theorem claim_C4_no_dimension_check (f1 f2 : List Nat) (rest : List (List Nat))
    (frame_rate : Nat) (_hmismatch : f1.length ≠ f2.length) :
    create_avi (f1 :: f2 :: rest) frame_rate = .ok (aviFile (f1 :: f2 :: rest) frame_rate) := by
  simp [create_avi]

/-- Witness for C4: two frames of 3 and 6 bytes are accepted. -/
theorem claim_C4_no_dimension_check_witness :
    create_avi [[9, 9, 9], [9, 9, 9, 9, 9, 9]] 30 =
      .ok (aviFile [[9, 9, 9], [9, 9, 9, 9, 9, 9]] 30) :=
  claim_C4_no_dimension_check [9, 9, 9] [9, 9, 9, 9, 9, 9] [] 30 (by decide)

/-- Counterexample to C4 as stated: an input with two frames of
inconsistent size (lengths 3 and 6) is not rejected — the muxer
produces a container file. -/
theorem claim_C4_counterexample :
    ([1, 2, 3] : List Nat).length ≠ ([1, 2, 3, 4, 5, 6] : List Nat).length ∧
    (create_avi [[1, 2, 3], [1, 2, 3, 4, 5, 6]] 30).isOk = true := by
  constructor
  · decide
  · rfl

/-! ## Claim C7: the idx1 index entries -/

/-- Claim C7 (confirmed): the index-entry list built by the `movi` loop
of `create_avi` has exactly one entry per frame, in frame order; the
entry of frame `i` records chunk id `00dc`, the key-frame flag 0x10 and
byte offset `paddedSum frames i`, the sum of the even-padded chunk
lengths (tag + length field + payload + padding) of all preceding
frames, with offset 0 for the first frame; and these offsets are
strictly increasing. -/
theorem claim_C7_idx1_entries (frames : List (List Nat)) :
    (buildMovi frames).2.1 =
      (List.range frames.length).map (fun i => idxEntry (paddedSum frames i)) ∧
    ∀ i j, i < j → j < frames.length → paddedSum frames i < paddedSum frames j := by
  constructor
  · rw [buildMovi, buildMovi_aux]
    simp
  · exact fun i j hij hj => paddedSum_strict_mono frames i j hij (by omega)

/-- Witness for C7 at a concrete two-frame input. -/
theorem claim_C7_idx1_entries_witness :
    (buildMovi [[0], [0, 0]]).2.1 =
      (List.range 2).map (fun i => idxEntry (paddedSum [[0], [0, 0]] i)) ∧
    paddedSum [[0], [0, 0]] 0 < paddedSum [[0], [0, 0]] 1 :=
  ⟨(claim_C7_idx1_entries [[0], [0, 0]]).1,
   (claim_C7_idx1_entries [[0], [0, 0]]).2 0 1 (by decide) (by decide)⟩

/-! ## Claim C8: the patched RIFF size field -/

/-- Claim C8 (confirmed): for every non-empty frame sequence the muxer
succeeds, and the 4-byte little-endian field at byte offset 4 of the
produced file holds the total file length minus 8 (provided that value
fits in 32 bits, as `struct.pack '<I'` requires). -/
theorem claim_C8_riff_size (frames : List (List Nat)) (frame_rate : Nat)
    (h : (aviBody frames frame_rate).length < 4294967296) :
    readU32 (aviFile frames frame_rate) 4 = (aviFile frames frame_rate).length - 8 ∧
    (frames.length ≠ 0 → create_avi frames frame_rate = .ok (aviFile frames frame_rate)) := by
  constructor
  · rw [aviFile, List.append_assoc, readU32_append [82, 73, 70, 70] _ 4 (by simp)]
    simp only [List.length_cons, List.length_nil]
    rw [show (4 - 4 : Nat) = 0 from rfl, readU32_u32le]
    simp [List.length_append, u32le_length]
    omega
  · intro hne
    simp [create_avi, hne]

set_option maxRecDepth 4000 in
/-- Witness for C8 at a single 3-byte frame. -/
theorem claim_C8_riff_size_witness :
    readU32 (aviFile [[0, 0, 0]] 30) 4 = (aviFile [[0, 0, 0]] 30).length - 8 ∧
    create_avi [[0, 0, 0]] 30 = .ok (aviFile [[0, 0, 0]] 30) :=
  ⟨(claim_C8_riff_size [[0, 0, 0]] 30 (by decide)).1,
   (claim_C8_riff_size [[0, 0, 0]] 30 (by decide)).2 (by decide)⟩

/-! ## Claim C10: header geometry is hardcoded to 200x200 -/

/-- Claim C10 (confirmed): for every non-empty frame sequence and frame
rate, the produced file's `avih` width (byte 64) and height (byte 68)
fields, its `strf` width (byte 184) and height (byte 188) fields, and
the derived max-bytes-per-second (byte 36), suggested-buffer-size
(byte 60) and image-size (byte 200) fields all come from the hardcoded
constants `width = 200` and `height = 200`, for arbitrary frame
contents and byte lengths. -/
theorem claim_C10_fixed_geometry (frames : List (List Nat)) (frame_rate : Nat)
    (hne : frames.length ≠ 0) (hrate : 200 * 200 * 3 * frame_rate < 4294967296) :
    create_avi frames frame_rate = .ok (aviFile frames frame_rate) ∧
    readU32 (aviFile frames frame_rate) 64 = 200 ∧
    readU32 (aviFile frames frame_rate) 68 = 200 ∧
    readU32 (aviFile frames frame_rate) 36 = 200 * 200 * 3 * frame_rate ∧
    readU32 (aviFile frames frame_rate) 60 = 200 * 200 * 3 ∧
    readU32 (aviFile frames frame_rate) 184 = 200 ∧
    readU32 (aviFile frames frame_rate) 188 = 200 ∧
    readU32 (aviFile frames frame_rate) 200 = 200 * 200 * 3 := by
  refine ⟨by simp [create_avi, hne], ?_, ?_, ?_, ?_, ?_, ?_, ?_⟩
  · rw [show aviFile frames frame_rate =
        ([82, 73, 70, 70] ++ u32le (aviBody frames frame_rate).length ++ [65, 86, 73, 32] ++
         [76, 73, 83, 84] ++ u32le 200 ++ [104, 100, 114, 108] ++ [97, 118, 105, 104] ++
         u32le 56 ++ u32le (1000000 / frame_rate) ++ u32le (200 * 200 * 3 * frame_rate) ++
         u32le 0 ++ u32le 16 ++ u32le frames.length ++ u32le 0 ++ u32le 1 ++
         u32le (200 * 200 * 3)) ++
        (u32le 200 ++
         (u32le 200 ++ u32le 0 ++ u32le 0 ++ u32le 0 ++ u32le 0 ++
          strl_list frames.length frame_rate ++ movi_chunk frames ++ idx1_chunk frames)) from by
      simp [aviFile, aviBody, hdrl_list, avih_chunk, avih, avih_chunk_length, strl_list_length,
            avih_length, u32le_length, u16le_length, List.append_assoc]]
    exact readU32_field _ _ 200 64 (by simp [u32le]) (by norm_num)
  · rw [show aviFile frames frame_rate =
        ([82, 73, 70, 70] ++ u32le (aviBody frames frame_rate).length ++ [65, 86, 73, 32] ++
         [76, 73, 83, 84] ++ u32le 200 ++ [104, 100, 114, 108] ++ [97, 118, 105, 104] ++
         u32le 56 ++ u32le (1000000 / frame_rate) ++ u32le (200 * 200 * 3 * frame_rate) ++
         u32le 0 ++ u32le 16 ++ u32le frames.length ++ u32le 0 ++ u32le 1 ++
         u32le (200 * 200 * 3) ++ u32le 200) ++
        (u32le 200 ++
         (u32le 0 ++ u32le 0 ++ u32le 0 ++ u32le 0 ++
          strl_list frames.length frame_rate ++ movi_chunk frames ++ idx1_chunk frames)) from by
      simp [aviFile, aviBody, hdrl_list, avih_chunk, avih, avih_chunk_length, strl_list_length,
            avih_length, u32le_length, u16le_length, List.append_assoc]]
    exact readU32_field _ _ 200 68 (by simp [u32le]) (by norm_num)
  · rw [show aviFile frames frame_rate =
        ([82, 73, 70, 70] ++ u32le (aviBody frames frame_rate).length ++ [65, 86, 73, 32] ++
         [76, 73, 83, 84] ++ u32le 200 ++ [104, 100, 114, 108] ++ [97, 118, 105, 104] ++
         u32le 56 ++ u32le (1000000 / frame_rate)) ++
        (u32le (200 * 200 * 3 * frame_rate) ++
         (u32le 0 ++ u32le 16 ++ u32le frames.length ++ u32le 0 ++ u32le 1 ++
          u32le (200 * 200 * 3) ++ u32le 200 ++ u32le 200 ++ u32le 0 ++ u32le 0 ++ u32le 0 ++
          u32le 0 ++ strl_list frames.length frame_rate ++ movi_chunk frames ++
          idx1_chunk frames)) from by
      simp [aviFile, aviBody, hdrl_list, avih_chunk, avih, avih_chunk_length, strl_list_length,
            avih_length, u32le_length, u16le_length, List.append_assoc]]
    exact readU32_field _ _ (200 * 200 * 3 * frame_rate) 36 (by simp [u32le]) hrate
  · rw [show aviFile frames frame_rate =
        ([82, 73, 70, 70] ++ u32le (aviBody frames frame_rate).length ++ [65, 86, 73, 32] ++
         [76, 73, 83, 84] ++ u32le 200 ++ [104, 100, 114, 108] ++ [97, 118, 105, 104] ++
         u32le 56 ++ u32le (1000000 / frame_rate) ++ u32le (200 * 200 * 3 * frame_rate) ++
         u32le 0 ++ u32le 16 ++ u32le frames.length ++ u32le 0 ++ u32le 1) ++
        (u32le (200 * 200 * 3) ++
         (u32le 200 ++ u32le 200 ++ u32le 0 ++ u32le 0 ++ u32le 0 ++ u32le 0 ++
          strl_list frames.length frame_rate ++ movi_chunk frames ++ idx1_chunk frames)) from by
      simp [aviFile, aviBody, hdrl_list, avih_chunk, avih, avih_chunk_length, strl_list_length,
            avih_length, u32le_length, u16le_length, List.append_assoc]]
    exact readU32_field _ _ (200 * 200 * 3) 60 (by simp [u32le]) (by norm_num)
  · rw [show aviFile frames frame_rate =
        ([82, 73, 70, 70] ++ u32le (aviBody frames frame_rate).length ++ [65, 86, 73, 32] ++
         [76, 73, 83, 84] ++ u32le 200 ++ [104, 100, 114, 108] ++
         avih_chunk frames.length frame_rate ++ [76, 73, 83, 84] ++ u32le 124 ++
         [115, 116, 114, 108] ++ strh_chunk frames.length frame_rate ++ [115, 116, 114, 102] ++
         u32le 40 ++ u32le 40) ++
        (u32le 200 ++
         (u32le 200 ++ u16le 1 ++ u16le 24 ++ u32le 0 ++ u32le (200 * 200 * 3) ++
          u32le 2835 ++ u32le 2835 ++ u32le 0 ++ u32le 0 ++ movi_chunk frames ++
          idx1_chunk frames)) from by
      simp [aviFile, aviBody, hdrl_list, strl_list, strf_chunk, strf, avih_chunk_length,
            strl_list_length, strh_chunk_length, strf_chunk_length, strf_length,
            u32le_length, u16le_length, List.append_assoc]]
    exact readU32_field _ _ 200 184
      (by simp [u32le_length, u16le_length, avih_chunk_length, strh_chunk_length]) (by norm_num)
  · rw [show aviFile frames frame_rate =
        ([82, 73, 70, 70] ++ u32le (aviBody frames frame_rate).length ++ [65, 86, 73, 32] ++
         [76, 73, 83, 84] ++ u32le 200 ++ [104, 100, 114, 108] ++
         avih_chunk frames.length frame_rate ++ [76, 73, 83, 84] ++ u32le 124 ++
         [115, 116, 114, 108] ++ strh_chunk frames.length frame_rate ++ [115, 116, 114, 102] ++
         u32le 40 ++ u32le 40 ++ u32le 200) ++
        (u32le 200 ++
         (u16le 1 ++ u16le 24 ++ u32le 0 ++ u32le (200 * 200 * 3) ++
          u32le 2835 ++ u32le 2835 ++ u32le 0 ++ u32le 0 ++ movi_chunk frames ++
          idx1_chunk frames)) from by
      simp [aviFile, aviBody, hdrl_list, strl_list, strf_chunk, strf, avih_chunk_length,
            strl_list_length, strh_chunk_length, strf_chunk_length, strf_length,
            u32le_length, u16le_length, List.append_assoc]]
    exact readU32_field _ _ 200 188
      (by simp [u32le_length, u16le_length, avih_chunk_length, strh_chunk_length]) (by norm_num)
  · rw [show aviFile frames frame_rate =
        ([82, 73, 70, 70] ++ u32le (aviBody frames frame_rate).length ++ [65, 86, 73, 32] ++
         [76, 73, 83, 84] ++ u32le 200 ++ [104, 100, 114, 108] ++
         avih_chunk frames.length frame_rate ++ [76, 73, 83, 84] ++ u32le 124 ++
         [115, 116, 114, 108] ++ strh_chunk frames.length frame_rate ++ [115, 116, 114, 102] ++
         u32le 40 ++ u32le 40 ++ u32le 200 ++ u32le 200 ++ u16le 1 ++ u16le 24 ++ u32le 0) ++
        (u32le (200 * 200 * 3) ++
         (u32le 2835 ++ u32le 2835 ++ u32le 0 ++ u32le 0 ++ movi_chunk frames ++
          idx1_chunk frames)) from by
      simp [aviFile, aviBody, hdrl_list, strl_list, strf_chunk, strf, avih_chunk_length,
            strl_list_length, strh_chunk_length, strf_chunk_length, strf_length,
            u32le_length, u16le_length, List.append_assoc]]
    exact readU32_field _ _ (200 * 200 * 3) 200
      (by simp [u32le_length, u16le_length, avih_chunk_length, strh_chunk_length]) (by norm_num)

/-- Witness for C10 at a single 1-byte frame and frame rate 25. -/
theorem claim_C10_fixed_geometry_witness :
    create_avi [[5]] 25 = .ok (aviFile [[5]] 25) ∧
    readU32 (aviFile [[5]] 25) 64 = 200 ∧
    readU32 (aviFile [[5]] 25) 68 = 200 ∧
    readU32 (aviFile [[5]] 25) 36 = 200 * 200 * 3 * 25 ∧
    readU32 (aviFile [[5]] 25) 60 = 200 * 200 * 3 ∧
    readU32 (aviFile [[5]] 25) 184 = 200 ∧
    readU32 (aviFile [[5]] 25) 188 = 200 ∧
    readU32 (aviFile [[5]] 25) 200 = 200 * 200 * 3 :=
  claim_C10_fixed_geometry [[5]] 25 (by decide) (by norm_num)


/-! ## Helper lemmas: `hypot` and the collision branches -/

theorem hypot_of_sq (dx dy r : ℝ) (hr : 0 ≤ r) (h : dx ^ 2 + dy ^ 2 = r ^ 2) :
    hypot dx dy = r := by
  rw [hypot, h, Real.sqrt_sq hr]

theorem hypot_sq (dx dy : ℝ) : hypot dx dy ^ 2 = dx ^ 2 + dy ^ 2 :=
  Real.sq_sqrt (by positivity)

theorem normal_sq_one (dx dy : ℝ) (h : hypot dx dy ≠ 0) :
    (dx / hypot dx dy) ^ 2 + (dy / hypot dx dy) ^ 2 = 1 := by
  have h2 := hypot_sq dx dy
  field_simp
  linarith

theorem pairCollide_far (θ : ℝ) (p1 p2 : Particle)
    (h : ¬ hypot (p1.x - p2.x) (p1.y - p2.y) < 2 * PARTICLE_RADIUS) :
    pairCollide θ p1 p2 = (p1, p2) := by
  simp only [pairCollide]
  rw [if_neg h]

theorem pairCollide_away (θ : ℝ) (p1 p2 : Particle) (d nx ny dot : ℝ)
    (hd : d = hypot (p1.x - p2.x) (p1.y - p2.y))
    (hlt : d < 2 * PARTICLE_RADIUS) (hd0 : d ≠ 0)
    (hnx : nx = (p1.x - p2.x) / d) (hny : ny = (p1.y - p2.y) / d)
    (hdot : dot = (p1.vx - p2.vx) * nx + (p1.vy - p2.vy) * ny)
    (hpos : dot > 0) :
    pairCollide θ p1 p2 = (p1, p2) := by
  subst hd hnx hny hdot
  simp only [pairCollide]
  rw [if_pos hlt]
  simp only [if_neg hd0]
  rw [if_pos hpos]

theorem pairCollide_hit (θ : ℝ) (p1 p2 : Particle) (d nx ny dot : ℝ)
    (hd : d = hypot (p1.x - p2.x) (p1.y - p2.y))
    (hlt : d < 2 * PARTICLE_RADIUS) (hd0 : d ≠ 0)
    (hnx : nx = (p1.x - p2.x) / d) (hny : ny = (p1.y - p2.y) / d)
    (hdot : dot = (p1.vx - p2.vx) * nx + (p1.vy - p2.vy) * ny)
    (hle : ¬ dot > 0) :
    pairCollide θ p1 p2 =
      ({ x := p1.x + nx * ((2 * PARTICLE_RADIUS - d) / 2),
         y := p1.y + ny * ((2 * PARTICLE_RADIUS - d) / 2),
         vx := p1.vx - dot * nx, vy := p1.vy - dot * ny },
       { x := p2.x - nx * ((2 * PARTICLE_RADIUS - d) / 2),
         y := p2.y - ny * ((2 * PARTICLE_RADIUS - d) / 2),
         vx := p2.vx + dot * nx, vy := p2.vy + dot * ny }) := by
  subst hd hnx hny hdot
  simp only [pairCollide]
  rw [if_pos hlt]
  simp only [if_neg hd0]
  rw [if_neg hle]

theorem pairCollide_deg_away (θ : ℝ) (p1 p2 : Particle) (nx ny dot : ℝ)
    (hd0 : hypot (p1.x - p2.x) (p1.y - p2.y) = 0)
    (hnx : nx = Real.cos θ / (1 / 1000000)) (hny : ny = Real.sin θ / (1 / 1000000))
    (hdot : dot = (p1.vx - p2.vx) * nx + (p1.vy - p2.vy) * ny)
    (hpos : dot > 0) :
    pairCollide θ p1 p2 = (p1, p2) := by
  subst hnx hny hdot
  simp only [pairCollide]
  rw [hd0]
  rw [if_pos (by norm_num [PARTICLE_RADIUS] : (0 : ℝ) < 2 * PARTICLE_RADIUS)]
  simp only [eq_self_iff_true, if_true]
  rw [if_pos hpos]

theorem pairCollide_deg_hit (θ : ℝ) (p1 p2 : Particle) (nx ny dot : ℝ)
    (hd0 : hypot (p1.x - p2.x) (p1.y - p2.y) = 0)
    (hnx : nx = Real.cos θ / (1 / 1000000)) (hny : ny = Real.sin θ / (1 / 1000000))
    (hdot : dot = (p1.vx - p2.vx) * nx + (p1.vy - p2.vy) * ny)
    (hle : ¬ dot > 0) :
    pairCollide θ p1 p2 =
      ({ x := p1.x + nx * ((2 * PARTICLE_RADIUS - 1 / 1000000) / 2),
         y := p1.y + ny * ((2 * PARTICLE_RADIUS - 1 / 1000000) / 2),
         vx := p1.vx - dot * nx, vy := p1.vy - dot * ny },
       { x := p2.x - nx * ((2 * PARTICLE_RADIUS - 1 / 1000000) / 2),
         y := p2.y - ny * ((2 * PARTICLE_RADIUS - 1 / 1000000) / 2),
         vx := p2.vx + dot * nx, vy := p2.vy + dot * ny }) := by
  subst hnx hny hdot
  simp only [pairCollide]
  rw [hd0]
  rw [if_pos (by norm_num [PARTICLE_RADIUS] : (0 : ℝ) < 2 * PARTICLE_RADIUS)]
  simp only [eq_self_iff_true, if_true]
  rw [if_neg hle]

theorem hpc_two (θ : ℕ → ℕ → ℝ) (a b : Particle) :
    handle_particle_collisions θ [a, b] =
      [(pairCollide (θ 0 1) a b).1, (pairCollide (θ 0 1) a b).2] := rfl

theorem pairCollide_sep_velocities (θ : ℝ) (p1 p2 : Particle)
    (hd0 : hypot (p1.x - p2.x) (p1.y - p2.y) ≠ 0)
    (hover : hypot (p1.x - p2.x) (p1.y - p2.y) < 2 * PARTICLE_RADIUS)
    (hsep : 0 ≤ (p1.vx - p2.vx) * ((p1.x - p2.x) / hypot (p1.x - p2.x) (p1.y - p2.y)) +
        (p1.vy - p2.vy) * ((p1.y - p2.y) / hypot (p1.x - p2.x) (p1.y - p2.y))) :
    (pairCollide θ p1 p2).1.vx = p1.vx ∧ (pairCollide θ p1 p2).1.vy = p1.vy ∧
    (pairCollide θ p1 p2).2.vx = p2.vx ∧ (pairCollide θ p1 p2).2.vy = p2.vy := by
  by_cases hpos : (p1.vx - p2.vx) * ((p1.x - p2.x) / hypot (p1.x - p2.x) (p1.y - p2.y)) +
      (p1.vy - p2.vy) * ((p1.y - p2.y) / hypot (p1.x - p2.x) (p1.y - p2.y)) > 0
  · rw [pairCollide_away θ p1 p2 _ _ _ _ rfl hover hd0 rfl rfl rfl hpos]
    exact ⟨rfl, rfl, rfl, rfl⟩
  · have hz : (p1.vx - p2.vx) * ((p1.x - p2.x) / hypot (p1.x - p2.x) (p1.y - p2.y)) +
        (p1.vy - p2.vy) * ((p1.y - p2.y) / hypot (p1.x - p2.x) (p1.y - p2.y)) = 0 := by
      push_neg at hpos
      linarith
    rw [pairCollide_hit θ p1 p2 _ _ _ _ rfl hover hd0 rfl rfl rfl hpos]
    rw [hz]
    norm_num

theorem wall_bounds (q : Particle) :
    PARTICLE_RADIUS ≤ (handle_wall_collisions q).x ∧
    (handle_wall_collisions q).x ≤ BOX_SIZE - PARTICLE_RADIUS ∧
    PARTICLE_RADIUS ≤ (handle_wall_collisions q).y ∧
    (handle_wall_collisions q).y ≤ BOX_SIZE - PARTICLE_RADIUS := by
  have hc : ∀ z : ℝ, PARTICLE_RADIUS ≤ max PARTICLE_RADIUS (min z (BOX_SIZE - PARTICLE_RADIUS)) ∧
      max PARTICLE_RADIUS (min z (BOX_SIZE - PARTICLE_RADIUS)) ≤ BOX_SIZE - PARTICLE_RADIUS :=
    fun z => ⟨le_max_left _ _,
      max_le (by norm_num [PARTICLE_RADIUS, BOX_SIZE]) (min_le_right _ _)⟩
  have hin : ∀ z : ℝ, ¬ (z - PARTICLE_RADIUS < 0 ∨ z + PARTICLE_RADIUS > BOX_SIZE) →
      PARTICLE_RADIUS ≤ z ∧ z ≤ BOX_SIZE - PARTICLE_RADIUS := by
    intro z hz
    push_neg at hz
    exact ⟨by linarith [hz.1], by linarith [hz.2]⟩
  unfold handle_wall_collisions
  by_cases h1 : q.x - PARTICLE_RADIUS < 0 ∨ q.x + PARTICLE_RADIUS > BOX_SIZE
  · simp only [if_pos h1]
    by_cases h2 : q.y - PARTICLE_RADIUS < 0 ∨ q.y + PARTICLE_RADIUS > BOX_SIZE
    · simp only [if_pos h2]
      exact ⟨(hc q.x).1, (hc q.x).2, (hc q.y).1, (hc q.y).2⟩
    · simp only [if_neg h2]
      exact ⟨(hc q.x).1, (hc q.x).2, (hin q.y h2).1, (hin q.y h2).2⟩
  · simp only [if_neg h1]
    by_cases h2 : q.y - PARTICLE_RADIUS < 0 ∨ q.y + PARTICLE_RADIUS > BOX_SIZE
    · simp only [if_pos h2]
      exact ⟨(hin q.x h1).1, (hin q.x h1).2, (hc q.y).1, (hc q.y).2⟩
    · simp only [if_neg h2]
      exact ⟨(hin q.x h1).1, (hin q.x h1).2, (hin q.y h2).1, (hin q.y h2).2⟩

theorem wall_noop (q : Particle)
    (hx : ¬ (q.x - PARTICLE_RADIUS < 0 ∨ q.x + PARTICLE_RADIUS > BOX_SIZE))
    (hy : ¬ (q.y - PARTICLE_RADIUS < 0 ∨ q.y + PARTICLE_RADIUS > BOX_SIZE)) :
    handle_wall_collisions q = q := by
  unfold handle_wall_collisions
  rw [if_neg hx, if_neg hy]

/-! ## Claim C2: the containment invariant -/

/-- Claim C2 (corrected): after the per-particle position-update and
wall-collision phase of a simulation step, every particle's coordinates
lie in `[PARTICLE_RADIUS, BOX_SIZE - PARTICLE_RADIUS]` on both axes.
The invariant does not survive the subsequent pairwise-collision phase
(see the counterexample), because the positional correction can push a
particle past a wall. -/
theorem claim_C2_wall_phase_bounds (ps : List Particle) (p : Particle)
    (hp : p ∈ ps.map fun q => handle_wall_collisions (update_position q)) :
    PARTICLE_RADIUS ≤ p.x ∧ p.x ≤ BOX_SIZE - PARTICLE_RADIUS ∧
    PARTICLE_RADIUS ≤ p.y ∧ p.y ≤ BOX_SIZE - PARTICLE_RADIUS := by
  obtain ⟨q, _, rfl⟩ := List.mem_map.mp hp
  exact wall_bounds (update_position q)

/-- Witness for C2's amended statement: a particle starting far outside
the box is clamped back into the valid range by the wall phase. -/
theorem claim_C2_wall_phase_bounds_witness :
    PARTICLE_RADIUS ≤ (handle_wall_collisions (update_position ⟨300, 100, 2, 3⟩)).x ∧
    (handle_wall_collisions (update_position ⟨300, 100, 2, 3⟩)).x ≤
      BOX_SIZE - PARTICLE_RADIUS ∧
    PARTICLE_RADIUS ≤ (handle_wall_collisions (update_position ⟨300, 100, 2, 3⟩)).y ∧
    (handle_wall_collisions (update_position ⟨300, 100, 2, 3⟩)).y ≤
      BOX_SIZE - PARTICLE_RADIUS :=
  claim_C2_wall_phase_bounds [⟨300, 100, 2, 3⟩] _ (by simp)

/-- Counterexample to C2 as stated: two overlapping stationary particles
at `(5, 100)` and `(9, 100)` (a legal initial state: both inside
`[5, 195]`) finish one completed simulation step at x-coordinates 2 and
12 — the first particle ends at `x = 2 < PARTICLE_RADIUS`, outside the
claimed range, pushed through the wall by the overlap correction. -/
theorem claim_C2_counterexample :
    (simulationStep (fun _ _ => 0) [⟨5, 100, 0, 0⟩, ⟨9, 100, 0, 0⟩]).map Particle.x =
      [2, 12] ∧
    ¬ PARTICLE_RADIUS ≤ (2 : ℝ) := by
  constructor
  · rw [simulationStep]
    have hA : handle_wall_collisions (update_position ⟨5, 100, 0, 0⟩) = ⟨5, 100, 0, 0⟩ := by
      have hu : update_position ⟨5, 100, 0, 0⟩ = (⟨5, 100, 0, 0⟩ : Particle) := by
        simp [update_position, TIME_STEP]
      rw [hu]
      exact wall_noop _ (by norm_num [PARTICLE_RADIUS, BOX_SIZE])
        (by norm_num [PARTICLE_RADIUS, BOX_SIZE])
    have hB : handle_wall_collisions (update_position ⟨9, 100, 0, 0⟩) = ⟨9, 100, 0, 0⟩ := by
      have hu : update_position ⟨9, 100, 0, 0⟩ = (⟨9, 100, 0, 0⟩ : Particle) := by
        simp [update_position, TIME_STEP]
      rw [hu]
      exact wall_noop _ (by norm_num [PARTICLE_RADIUS, BOX_SIZE])
        (by norm_num [PARTICLE_RADIUS, BOX_SIZE])
    rw [List.map_cons, List.map_cons, List.map_nil, hA, hB]
    rw [hpc_two]
    rw [pairCollide_hit 0 ⟨5, 100, 0, 0⟩ ⟨9, 100, 0, 0⟩ 4 (-1) 0 0
          ((hypot_of_sq _ _ 4 (by norm_num) (by norm_num)).symm)
          (by norm_num [PARTICLE_RADIUS]) (by norm_num)
          (by norm_num) (by norm_num) (by norm_num) (by norm_num)]
    norm_num [PARTICLE_RADIUS]
  · norm_num [PARTICLE_RADIUS]

/-! ## Claim C3: conservation laws of the pair response -/

/-- Claim C3 (corrected): the pair-collision response always conserves
the sum of the two velocity vectors (momentum), and it conserves the
sum of squared speeds (kinetic energy) whenever the two particles are
at distinct positions.  In the coincident-position fallback the
substituted collision normal `(cos θ, sin θ) / 1e-6` has magnitude
`10^6`, so kinetic energy is not conserved there (see the
counterexample). -/
theorem claim_C3_conservation (θ : ℝ) (p1 p2 : Particle) :
    ((pairCollide θ p1 p2).1.vx + (pairCollide θ p1 p2).2.vx = p1.vx + p2.vx ∧
     (pairCollide θ p1 p2).1.vy + (pairCollide θ p1 p2).2.vy = p1.vy + p2.vy) ∧
    (hypot (p1.x - p2.x) (p1.y - p2.y) ≠ 0 →
      (pairCollide θ p1 p2).1.vx ^ 2 + (pairCollide θ p1 p2).1.vy ^ 2 +
        (pairCollide θ p1 p2).2.vx ^ 2 + (pairCollide θ p1 p2).2.vy ^ 2 =
      p1.vx ^ 2 + p1.vy ^ 2 + p2.vx ^ 2 + p2.vy ^ 2) := by
  obtain ⟨d, hd⟩ : ∃ x, x = hypot (p1.x - p2.x) (p1.y - p2.y) := ⟨_, rfl⟩
  by_cases hfar : d < 2 * PARTICLE_RADIUS
  · by_cases hd0 : d = 0
    · have hdeg : hypot (p1.x - p2.x) (p1.y - p2.y) = 0 := by rw [← hd]; exact hd0
      obtain ⟨nx, hnx⟩ : ∃ x, x = Real.cos θ / (1 / 1000000) := ⟨_, rfl⟩
      obtain ⟨ny, hny⟩ : ∃ x, x = Real.sin θ / (1 / 1000000) := ⟨_, rfl⟩
      obtain ⟨dot, hdot⟩ : ∃ x, x = (p1.vx - p2.vx) * nx + (p1.vy - p2.vy) * ny := ⟨_, rfl⟩
      by_cases hpos : dot > 0
      · rw [pairCollide_deg_away θ p1 p2 nx ny dot hdeg hnx hny hdot hpos]
        exact ⟨⟨rfl, rfl⟩, fun h => absurd hdeg h⟩
      · rw [pairCollide_deg_hit θ p1 p2 nx ny dot hdeg hnx hny hdot hpos]
        exact ⟨⟨by ring, by ring⟩, fun h => absurd hdeg h⟩
    · obtain ⟨nx, hnx⟩ : ∃ x, x = (p1.x - p2.x) / d := ⟨_, rfl⟩
      obtain ⟨ny, hny⟩ : ∃ x, x = (p1.y - p2.y) / d := ⟨_, rfl⟩
      obtain ⟨dot, hdot⟩ : ∃ x, x = (p1.vx - p2.vx) * nx + (p1.vy - p2.vy) * ny := ⟨_, rfl⟩
      by_cases hpos : dot > 0
      · rw [pairCollide_away θ p1 p2 d nx ny dot hd hfar hd0 hnx hny hdot hpos]
        exact ⟨⟨rfl, rfl⟩, fun _ => rfl⟩
      · rw [pairCollide_hit θ p1 p2 d nx ny dot hd hfar hd0 hnx hny hdot hpos]
        refine ⟨⟨by ring, by ring⟩, fun _ => ?_⟩
        have hnn : nx ^ 2 + ny ^ 2 = 1 := by
          rw [hnx, hny, hd]
          exact normal_sq_one _ _ (by rw [← hd]; exact hd0)
        have ht : dot = (p1.vx - p2.vx) * nx + (p1.vy - p2.vy) * ny := hdot
        linear_combination (2 * dot ^ 2) * hnn + (2 * dot) * ht
  · rw [pairCollide_far θ p1 p2 (by rw [← hd]; exact hfar)]
    exact ⟨⟨rfl, rfl⟩, fun _ => rfl⟩

/-- Witness for C3 at a concrete overlapping pair at distinct
positions. -/
theorem claim_C3_conservation_witness :
    ((pairCollide 1 ⟨0, 0, 1, 0⟩ ⟨3, 0, 0, 0⟩).1.vx +
        (pairCollide 1 ⟨0, 0, 1, 0⟩ ⟨3, 0, 0, 0⟩).2.vx =
      ((⟨0, 0, 1, 0⟩ : Particle)).vx + ((⟨3, 0, 0, 0⟩ : Particle)).vx ∧
     (pairCollide 1 ⟨0, 0, 1, 0⟩ ⟨3, 0, 0, 0⟩).1.vy +
        (pairCollide 1 ⟨0, 0, 1, 0⟩ ⟨3, 0, 0, 0⟩).2.vy =
      ((⟨0, 0, 1, 0⟩ : Particle)).vy + ((⟨3, 0, 0, 0⟩ : Particle)).vy) ∧
    (pairCollide 1 ⟨0, 0, 1, 0⟩ ⟨3, 0, 0, 0⟩).1.vx ^ 2 +
        (pairCollide 1 ⟨0, 0, 1, 0⟩ ⟨3, 0, 0, 0⟩).1.vy ^ 2 +
        (pairCollide 1 ⟨0, 0, 1, 0⟩ ⟨3, 0, 0, 0⟩).2.vx ^ 2 +
        (pairCollide 1 ⟨0, 0, 1, 0⟩ ⟨3, 0, 0, 0⟩).2.vy ^ 2 =
      ((⟨0, 0, 1, 0⟩ : Particle)).vx ^ 2 + ((⟨0, 0, 1, 0⟩ : Particle)).vy ^ 2 +
        ((⟨3, 0, 0, 0⟩ : Particle)).vx ^ 2 + ((⟨3, 0, 0, 0⟩ : Particle)).vy ^ 2 :=
  ⟨(claim_C3_conservation 1 ⟨0, 0, 1, 0⟩ ⟨3, 0, 0, 0⟩).1,
   (claim_C3_conservation 1 ⟨0, 0, 1, 0⟩ ⟨3, 0, 0, 0⟩).2
     (by rw [show hypot ((0 : ℝ) - 3) ((0 : ℝ) - 0) = 3 from
           hypot_of_sq _ _ 3 (by norm_num) (by norm_num)]
         norm_num)⟩

/-- Counterexample to C3 as stated: two coincident particles (distance
0, hence overlapping) with velocities `(-1, 0)` and `(1, 0)` get the
response applied (projection `-2·10^6 ≤ 0`), and their summed squared
speed changes from 2 to `2·(2·10^12 - 1)^2` — kinetic energy is not
conserved by the degenerate branch. -/
theorem claim_C3_counterexample :
    hypot (((⟨10, 10, -1, 0⟩ : Particle)).x - ((⟨10, 10, 1, 0⟩ : Particle)).x)
          (((⟨10, 10, -1, 0⟩ : Particle)).y - ((⟨10, 10, 1, 0⟩ : Particle)).y) <
      2 * PARTICLE_RADIUS ∧
    (pairCollide 0 ⟨10, 10, -1, 0⟩ ⟨10, 10, 1, 0⟩).1.vx ^ 2 +
        (pairCollide 0 ⟨10, 10, -1, 0⟩ ⟨10, 10, 1, 0⟩).1.vy ^ 2 +
        (pairCollide 0 ⟨10, 10, -1, 0⟩ ⟨10, 10, 1, 0⟩).2.vx ^ 2 +
        (pairCollide 0 ⟨10, 10, -1, 0⟩ ⟨10, 10, 1, 0⟩).2.vy ^ 2 ≠
      ((⟨10, 10, -1, 0⟩ : Particle)).vx ^ 2 + ((⟨10, 10, -1, 0⟩ : Particle)).vy ^ 2 +
        ((⟨10, 10, 1, 0⟩ : Particle)).vx ^ 2 + ((⟨10, 10, 1, 0⟩ : Particle)).vy ^ 2 := by
  have hdeg : hypot ((10 : ℝ) - 10) ((10 : ℝ) - 10) = 0 :=
    hypot_of_sq _ _ 0 le_rfl (by norm_num)
  constructor
  · show hypot ((10 : ℝ) - 10) ((10 : ℝ) - 10) < 2 * PARTICLE_RADIUS
    rw [hdeg]
    norm_num [PARTICLE_RADIUS]
  · rw [pairCollide_deg_hit 0 ⟨10, 10, -1, 0⟩ ⟨10, 10, 1, 0⟩ 1000000 0 (-2000000)
          hdeg
          (by rw [Real.cos_zero]; norm_num)
          (by rw [Real.sin_zero]; norm_num)
          (by norm_num)
          (by norm_num)]
    norm_num

/-! ## Claim C5: the symmetric head-on scenario -/

/-- Claim C5 (confirmed): two identical-radius particles at `(10, 10)`
and `(10, 10 + r)` with velocities `(0, 1)` and `(0, -1)`, where
`0 < r < 2 * PARTICLE_RADIUS`, have exactly swapped y-velocities after
one pass of `handle_particle_collisions`, and are pushed apart along
the collision normal to a separation of exactly `2 * PARTICLE_RADIUS`. -/
theorem claim_C5_headon_swap (θ : ℕ → ℕ → ℝ) (r : ℝ) (hr0 : 0 < r)
    (hr : r < 2 * PARTICLE_RADIUS) :
    handle_particle_collisions θ [⟨10, 10, 0, 1⟩, ⟨10, 10 + r, 0, -1⟩] =
      [⟨10, 10 - (2 * PARTICLE_RADIUS - r) / 2, 0, -1⟩,
       ⟨10, 10 + r + (2 * PARTICLE_RADIUS - r) / 2, 0, 1⟩] ∧
    hypot ((10 : ℝ) - 10)
      ((10 + r + (2 * PARTICLE_RADIUS - r) / 2) - (10 - (2 * PARTICLE_RADIUS - r) / 2)) =
      2 * PARTICLE_RADIUS := by
  have hd : r = hypot ((10 : ℝ) - 10) (10 - (10 + r)) := by
    symm
    exact hypot_of_sq _ _ r hr0.le (by ring)
  constructor
  · rw [hpc_two]
    rw [pairCollide_hit (θ 0 1) ⟨10, 10, 0, 1⟩ ⟨10, 10 + r, 0, -1⟩ r 0 (-1) (-2) hd hr
          (ne_of_gt hr0)
          (by norm_num)
          (by rw [show (10 : ℝ) - (10 + r) = -r by ring, neg_div, div_self (ne_of_gt hr0)])
          (by norm_num)
          (by norm_num)]
    norm_num [Particle.mk.injEq]
    ring
  · exact hypot_of_sq _ _ _ (by norm_num [PARTICLE_RADIUS]) (by ring)

/-- Witness for C5 at `r = 4`. -/
theorem claim_C5_headon_swap_witness :
    handle_particle_collisions (fun _ _ => 0) [⟨10, 10, 0, 1⟩, ⟨10, 10 + 4, 0, -1⟩] =
      [⟨10, 10 - (2 * PARTICLE_RADIUS - 4) / 2, 0, -1⟩,
       ⟨10, 10 + 4 + (2 * PARTICLE_RADIUS - 4) / 2, 0, 1⟩] ∧
    hypot ((10 : ℝ) - 10)
      ((10 + 4 + (2 * PARTICLE_RADIUS - 4) / 2) - (10 - (2 * PARTICLE_RADIUS - 4) / 2)) =
      2 * PARTICLE_RADIUS :=
  claim_C5_headon_swap (fun _ _ => 0) 4 (by norm_num) (by norm_num [PARTICLE_RADIUS])

/-! ## Claim C6: separating pairs get no velocity change -/

/-- Claim C6 (confirmed): for an overlapping pair at distinct positions
whose relative velocity projected onto the collision normal is
nonnegative, the pairwise-collision step leaves both particles'
velocities unchanged.  (When the projection is exactly zero the source
does enter the response branch, but the exchanged impulse is zero.) -/
theorem claim_C6_separating_pair (θ : ℕ → ℕ → ℝ) (p1 p2 : Particle)
    (hd0 : hypot (p1.x - p2.x) (p1.y - p2.y) ≠ 0)
    (hover : hypot (p1.x - p2.x) (p1.y - p2.y) < 2 * PARTICLE_RADIUS)
    (hsep : 0 ≤ (p1.vx - p2.vx) * ((p1.x - p2.x) / hypot (p1.x - p2.x) (p1.y - p2.y)) +
        (p1.vy - p2.vy) * ((p1.y - p2.y) / hypot (p1.x - p2.x) (p1.y - p2.y))) :
    (handle_particle_collisions θ [p1, p2]).map Particle.vx = [p1.vx, p2.vx] ∧
    (handle_particle_collisions θ [p1, p2]).map Particle.vy = [p1.vy, p2.vy] := by
  have h := pairCollide_sep_velocities (θ 0 1) p1 p2 hd0 hover hsep
  rw [hpc_two]
  simp only [List.map_cons, List.map_nil]
  rw [h.1, h.2.1, h.2.2.1, h.2.2.2]
  exact ⟨rfl, rfl⟩

/-- Witness for C6: an overlapping pair moving apart. -/
theorem claim_C6_separating_pair_witness :
    (handle_particle_collisions (fun _ _ => 0) [⟨10, 10, 0, -1⟩, ⟨10, 14, 0, 1⟩]).map
        Particle.vx =
      [((⟨10, 10, 0, -1⟩ : Particle)).vx, ((⟨10, 14, 0, 1⟩ : Particle)).vx] ∧
    (handle_particle_collisions (fun _ _ => 0) [⟨10, 10, 0, -1⟩, ⟨10, 14, 0, 1⟩]).map
        Particle.vy =
      [((⟨10, 10, 0, -1⟩ : Particle)).vy, ((⟨10, 14, 0, 1⟩ : Particle)).vy] := by
  have h4 : hypot ((10 : ℝ) - 10) ((10 : ℝ) - 14) = 4 :=
    hypot_of_sq _ _ 4 (by norm_num) (by norm_num)
  exact claim_C6_separating_pair (fun _ _ => 0) ⟨10, 10, 0, -1⟩ ⟨10, 14, 0, 1⟩
    (by rw [h4]; norm_num)
    (by rw [h4]; norm_num [PARTICLE_RADIUS])
    (by rw [h4]; norm_num)

theorem ok_bind (v : Nat) (k : Nat → Except BmpError (List Nat)) :
    (Except.ok v : Except BmpError Nat).bind k = k v := rfl

theorem error_bind (e : BmpError) (k : Nat → Except BmpError (List Nat)) :
    (Except.error e : Except BmpError Nat).bind k = .error e := rfl

theorem ite_bind (c : Prop) [Decidable c] (a b : Except BmpError Nat)
    (k : Nat → Except BmpError (List Nat)) :
    (if c then a else b).bind k = if c then a.bind k else b.bind k := by
  split <;> rfl

theorem readN_length (data : List Nat) (pos n : Nat) :
    (readN data pos n).length = min n (data.length - pos) := by
  simp [readN]

theorem unpackAt_ok (data : List Nat) (pos n : Nat) (h : pos + n ≤ data.length) :
    unpackAt data pos n = .ok (unpackLE (readN data pos n)) := by
  unfold unpackAt
  rw [if_pos]
  rw [readN_length]
  omega

theorem unpackLE_u32le (n : Nat) : unpackLE (u32le n) = n % 4294967296 := by
  simp [unpackLE, u32le]
  omega

theorem unpackLE_u16le (n : Nat) : unpackLE (u16le n) = n % 65536 := by
  simp [unpackLE, u16le]
  omega

set_option maxHeartbeats 1600000 in
theorem read_bmp_of_header (data : List Nat) (hmagic : data.take 2 = [66, 77])
    (hlen : 54 ≤ data.length) :
    read_bmp data =
      if unpackLE (readN data 28 2) ≠ 24 then .error .valueError
      else
        decodeRows
          (readN data (unpackLE (readN data 10 4))
            ((unpackLE (readN data 18 4) * 3 + 3) / 4 * 4 * unpackLE (readN data 22 4)))
          ((unpackLE (readN data 18 4) * 3 + 3) / 4 * 4)
          (unpackLE (readN data 18 4))
          (List.range (unpackLE (readN data 22 4))) := by
  unfold read_bmp
  rw [if_neg (by simp [hmagic])]
  simp only [unpackAt_ok data 2 4 (by omega), unpackAt_ok data 6 2 (by omega), unpackAt_ok data 8 2 (by omega), unpackAt_ok data 10 4 (by omega), unpackAt_ok data 14 4 (by omega), unpackAt_ok data 18 4 (by omega), unpackAt_ok data 22 4 (by omega), unpackAt_ok data 26 2 (by omega), unpackAt_ok data 28 2 (by omega), unpackAt_ok data 30 4 (by omega), unpackAt_ok data 34 4 (by omega), unpackAt_ok data 38 4 (by omega), unpackAt_ok data 42 4 (by omega), unpackAt_ok data 46 4 (by omega), unpackAt_ok data 50 4 (by omega), ok_bind]

theorem unpackAt_err (data : List Nat) (pos n : Nat) (h : data.length < pos + n)
    (hn : 0 < n) : unpackAt data pos n = .error .structError := by
  unfold unpackAt
  rw [if_neg]
  rw [readN_length]
  omega

theorem read_bmp_bad_magic (data : List Nat) (h : data.take 2 ≠ [66, 77]) :
    read_bmp data = .error .valueError := by
  unfold read_bmp
  rw [if_pos h]

set_option maxHeartbeats 1600000 in
theorem read_bmp_short_header (data : List Nat) (hmagic : data.take 2 = [66, 77])
    (hshort : data.length < 54) : read_bmp data = .error .structError := by
  unfold read_bmp
  rw [if_neg (by simp [hmagic])]
  by_cases h0 : 2 + 4 ≤ data.length
  · simp only [unpackAt_ok data 2 4 h0, ok_bind]
    by_cases h1 : 6 + 2 ≤ data.length
    · simp only [unpackAt_ok data 6 2 h1, ok_bind]
      by_cases h2 : 8 + 2 ≤ data.length
      · simp only [unpackAt_ok data 8 2 h2, ok_bind]
        by_cases h3 : 10 + 4 ≤ data.length
        · simp only [unpackAt_ok data 10 4 h3, ok_bind]
          by_cases h4 : 14 + 4 ≤ data.length
          · simp only [unpackAt_ok data 14 4 h4, ok_bind]
            by_cases h5 : 18 + 4 ≤ data.length
            · simp only [unpackAt_ok data 18 4 h5, ok_bind]
              by_cases h6 : 22 + 4 ≤ data.length
              · simp only [unpackAt_ok data 22 4 h6, ok_bind]
                by_cases h7 : 26 + 2 ≤ data.length
                · simp only [unpackAt_ok data 26 2 h7, ok_bind]
                  by_cases h8 : 28 + 2 ≤ data.length
                  · simp only [unpackAt_ok data 28 2 h8, ok_bind]
                    by_cases h9 : 30 + 4 ≤ data.length
                    · simp only [unpackAt_ok data 30 4 h9, ok_bind]
                      by_cases h10 : 34 + 4 ≤ data.length
                      · simp only [unpackAt_ok data 34 4 h10, ok_bind]
                        by_cases h11 : 38 + 4 ≤ data.length
                        · simp only [unpackAt_ok data 38 4 h11, ok_bind]
                          by_cases h12 : 42 + 4 ≤ data.length
                          · simp only [unpackAt_ok data 42 4 h12, ok_bind]
                            by_cases h13 : 46 + 4 ≤ data.length
                            · simp only [unpackAt_ok data 46 4 h13, ok_bind]
                              rw [unpackAt_err data 50 4 (by omega) (by norm_num), error_bind]
                            · rw [unpackAt_err data 46 4 (by omega) (by norm_num), error_bind]
                          · rw [unpackAt_err data 42 4 (by omega) (by norm_num), error_bind]
                        · rw [unpackAt_err data 38 4 (by omega) (by norm_num), error_bind]
                      · rw [unpackAt_err data 34 4 (by omega) (by norm_num), error_bind]
                    · rw [unpackAt_err data 30 4 (by omega) (by norm_num), error_bind]
                  · rw [unpackAt_err data 28 2 (by omega) (by norm_num), error_bind]
                · rw [unpackAt_err data 26 2 (by omega) (by norm_num), error_bind]
              · rw [unpackAt_err data 22 4 (by omega) (by norm_num), error_bind]
            · rw [unpackAt_err data 18 4 (by omega) (by norm_num), error_bind]
          · rw [unpackAt_err data 14 4 (by omega) (by norm_num), error_bind]
        · rw [unpackAt_err data 10 4 (by omega) (by norm_num), error_bind]
      · rw [unpackAt_err data 8 2 (by omega) (by norm_num), error_bind]
    · rw [unpackAt_err data 6 2 (by omega) (by norm_num), error_bind]
  · rw [unpackAt_err data 2 4 (by omega) (by norm_num), error_bind]


theorem readN_field (pre field post : List Nat) (pos n : Nat) (hpre : pre.length = pos)
    (hf : field.length = n) : readN (pre ++ (field ++ post)) pos n = field := by
  unfold readN
  rw [List.drop_left' hpre, List.take_left' hf]

theorem bmp_header_length (w : Nat) : (bmp_header w).length = 54 := by
  simp [bmp_header, u32le_length, u16le_length]

theorem header_magic (w : Nat) (rest : List Nat) :
    (bmp_header w ++ rest).take 2 = [66, 77] := rfl

theorem header_offset_field (w : Nat) (rest : List Nat) :
    readN (bmp_header w ++ rest) 10 4 = u32le 54 := by
  rw [show bmp_header w ++ rest =
      ([66, 77] ++ u32le (54 + (w * 3 + (4 - (w * 3) % 4) % 4) * w) ++ u16le 0 ++ u16le 0) ++
      (u32le 54 ++
       (u32le 40 ++ u32le w ++ u32le w ++ u16le 1 ++ u16le 24 ++ u32le 0 ++
        u32le ((w * 3 + (4 - (w * 3) % 4) % 4) * w) ++ u32le 2835 ++ u32le 2835 ++ u32le 0 ++
        u32le 0 ++ rest)) from by
    simp [bmp_header, List.append_assoc]]
  exact readN_field _ _ _ 10 4 (by simp [u32le_length, u16le_length]) rfl

theorem header_width_field (w : Nat) (rest : List Nat) :
    readN (bmp_header w ++ rest) 18 4 = u32le w := by
  rw [show bmp_header w ++ rest =
      ([66, 77] ++ u32le (54 + (w * 3 + (4 - (w * 3) % 4) % 4) * w) ++ u16le 0 ++ u16le 0 ++
       u32le 54 ++ u32le 40) ++
      (u32le w ++
       (u32le w ++ u16le 1 ++ u16le 24 ++ u32le 0 ++
        u32le ((w * 3 + (4 - (w * 3) % 4) % 4) * w) ++ u32le 2835 ++ u32le 2835 ++ u32le 0 ++
        u32le 0 ++ rest)) from by
    simp [bmp_header, List.append_assoc]]
  exact readN_field _ _ _ 18 4 (by simp [u32le_length, u16le_length]) rfl

theorem header_height_field (w : Nat) (rest : List Nat) :
    readN (bmp_header w ++ rest) 22 4 = u32le w := by
  rw [show bmp_header w ++ rest =
      ([66, 77] ++ u32le (54 + (w * 3 + (4 - (w * 3) % 4) % 4) * w) ++ u16le 0 ++ u16le 0 ++
       u32le 54 ++ u32le 40 ++ u32le w) ++
      (u32le w ++
       (u16le 1 ++ u16le 24 ++ u32le 0 ++
        u32le ((w * 3 + (4 - (w * 3) % 4) % 4) * w) ++ u32le 2835 ++ u32le 2835 ++ u32le 0 ++
        u32le 0 ++ rest)) from by
    simp [bmp_header, List.append_assoc]]
  exact readN_field _ _ _ 22 4 (by simp [u32le_length, u16le_length]) rfl

theorem header_bitcount_field (w : Nat) (rest : List Nat) :
    readN (bmp_header w ++ rest) 28 2 = u16le 24 := by
  rw [show bmp_header w ++ rest =
      ([66, 77] ++ u32le (54 + (w * 3 + (4 - (w * 3) % 4) % 4) * w) ++ u16le 0 ++ u16le 0 ++
       u32le 54 ++ u32le 40 ++ u32le w ++ u32le w ++ u16le 1) ++
      (u16le 24 ++
       (u32le 0 ++ u32le ((w * 3 + (4 - (w * 3) % 4) % 4) * w) ++ u32le 2835 ++ u32le 2835 ++
        u32le 0 ++ u32le 0 ++ rest)) from by
    simp [bmp_header, List.append_assoc]]
  exact readN_field _ _ _ 28 2 (by simp [u32le_length, u16le_length]) rfl


theorem foldl_append_eq_flatten (g : Nat → List Nat) (l : List Nat) (init : List Nat) :
    l.foldl (fun acc r => acc ++ g r) init = init ++ (l.map g).flatten := by
  induction l generalizing init with
  | nil => simp
  | cons a t ih => simp [ih, List.append_assoc]

theorem bmp_data_eq (w : Nat) (frame : List Nat) :
    bmp_data w frame =
      ((List.range w).map
        (fun r => (frame.drop (r * w * 3)).take (w * 3) ++
          List.replicate ((w * 3 + 3) / 4 * 4 - w * 3) 0)).flatten := by
  rw [bmp_data, foldl_append_eq_flatten]
  rfl

theorem slice_length (w : Nat) (frame : List Nat) (r : Nat) (hlen : frame.length = w * w * 3)
    (hr : r < w) : ((frame.drop (r * w * 3)).take (w * 3)).length = w * 3 := by
  simp only [List.length_take, List.length_drop, hlen]
  have h1 : (r + 1) * (w * 3) ≤ w * (w * 3) := Nat.mul_le_mul_right _ (by omega)
  have h2 : r * w * 3 + w * 3 = (r + 1) * (w * 3) := by ring
  have h3 : w * w * 3 = w * (w * 3) := by ring
  omega

theorem padded_row_ge (w : Nat) : w * 3 ≤ (w * 3 + 3) / 4 * 4 := by
  omega

theorem padded_row_length (w : Nat) (frame : List Nat) (r : Nat)
    (hlen : frame.length = w * w * 3) (hr : r < w) :
    ((frame.drop (r * w * 3)).take (w * 3) ++
      List.replicate ((w * 3 + 3) / 4 * 4 - w * 3) 0).length = (w * 3 + 3) / 4 * 4 := by
  rw [List.length_append, slice_length w frame r hlen hr, List.length_replicate]
  have := padded_row_ge w
  omega

theorem bmp_data_length (w : Nat) (frame : List Nat) (hlen : frame.length = w * w * 3) :
    (bmp_data w frame).length = (w * 3 + 3) / 4 * 4 * w := by
  rw [bmp_data_eq, List.length_flatten]
  rw [List.map_map]
  have hmap : ((List.range w).map
      (List.length ∘ fun r => (frame.drop (r * w * 3)).take (w * 3) ++
        List.replicate ((w * 3 + 3) / 4 * 4 - w * 3) 0)) =
      (List.range w).map (fun _ => (w * 3 + 3) / 4 * 4) := by
    refine List.map_congr_left fun r hr => ?_
    simp only [Function.comp]
    exact padded_row_length w frame r hlen (List.mem_range.mp hr)
  rw [hmap, List.map_const', List.sum_replicate, smul_eq_mul, List.length_range,
      Nat.mul_comm]

theorem flatten_read (rows : List (List Nat)) (L K : Nat) (hK : K ≤ L)
    (hL : ∀ row ∈ rows, row.length = L) : ∀ r, r < rows.length →
    readN rows.flatten (r * L) K = (rows.getD r []).take K := by
  induction rows with
  | nil => intro r hr; simp at hr
  | cons row rest ih =>
    intro r hr
    match r with
    | 0 =>
      simp only [Nat.zero_mul, readN, List.flatten_cons, List.drop_zero, List.getD_cons_zero]
      rw [List.take_append_of_le_length (by rw [hL row (by simp)]; exact hK)]
    | r + 1 =>
      have hrow : row.length = L := hL row (by simp)
      simp only [List.flatten_cons, List.getD_cons_succ, readN]
      rw [show (r + 1) * L = row.length + r * L by rw [hrow]; ring, List.drop_append]
      exact ih (fun rw hrw => hL rw (by simp [hrw])) r (by simpa using hr)


theorem swapRow_eq : ∀ (xs : List Nat), xs.length % 3 = 0 → swapRow xs = .ok (swapTriples xs)
  | [], _ => rfl
  | [a], h => by simp at h
  | [a, b], h => by simp at h
  | a :: b :: c :: rest, h => by
    have ih := swapRow_eq rest (by simp at h; omega)
    simp [swapRow, swapTriples, ih]
    rfl

theorem swapTriples_append : ∀ (a b : List Nat), a.length % 3 = 0 →
    swapTriples (a ++ b) = swapTriples a ++ swapTriples b
  | [], b, _ => rfl
  | [x], b, h => by simp at h
  | [x, y], b, h => by simp at h
  | x :: y :: z :: rest, b, h => by
    have ih := swapTriples_append rest b (by simp at h; omega)
    simp [swapTriples, ih]

theorem flatten_map_swapTriples : ∀ (rows : List (List Nat)),
    (∀ row ∈ rows, row.length % 3 = 0) →
    (rows.map swapTriples).flatten = swapTriples rows.flatten
  | [], _ => rfl
  | row :: rest, h => by
    rw [List.map_cons, List.flatten_cons, List.flatten_cons,
        swapTriples_append row rest.flatten (h row (by simp)),
        flatten_map_swapTriples rest (fun q hq => h q (by simp [hq]))]

theorem flatten_slices : ∀ (n : Nat) (s : Nat) (frame : List Nat), frame.length = n * s →
    ((List.range n).map (fun r => (frame.drop (r * s)).take s)).flatten = frame
  | 0, s, frame, h => by
    simp at h
    simp [h]
  | n + 1, s, frame, h => by
    rw [List.range_succ_eq_map, List.map_cons, List.flatten_cons, List.map_map]
    have hmap : ((List.range n).map ((fun r => (frame.drop (r * s)).take s) ∘ Nat.succ)) =
        (List.range n).map (fun r => ((frame.drop s).drop (r * s)).take s) := by
      refine List.map_congr_left fun r _ => ?_
      simp only [Function.comp]
      rw [List.drop_drop, show s + r * s = Nat.succ r * s by rw [Nat.succ_mul]; ring]
    rw [hmap, flatten_slices n s (frame.drop s)
          (by rw [List.length_drop, h, Nat.succ_mul]; omega)]
    simp
theorem decodeRows_eq (raw : List Nat) (rp w : Nat) (g : Nat → List Nat) :
    ∀ (idxs : List Nat), (∀ r ∈ idxs, swapRow (readN raw (r * rp) (w * 3)) = .ok (g r)) →
    decodeRows raw rp w idxs = .ok ((idxs.map g).flatten)
  | [], _ => rfl
  | r :: rs, h => by
    rw [decodeRows, h r (by simp), decodeRows_eq raw rp w g rs (fun q hq => h q (by simp [hq]))]
    rfl

/-- Claim C1 (corrected): decoding the bitmap file produced by encoding
a frame buffer returns the buffer with the first and third channel of
every 3-byte pixel swapped (the encoder stores the buffer verbatim in
BGR order while the decoder converts to RGB), not the identical buffer.
The round trip is the identity exactly on buffers whose pixels have
equal first and third channels.  `w` is the `BOX_SIZE` configuration
constant (width = height = `w`). -/
theorem claim_C1_roundtrip_swaps_channels (w : Nat) (frame : List Nat) (hw : w < 4294967296)
    (hlen : frame.length = w * w * 3) :
    read_bmp (save_frame_as_bmp w frame) = .ok (swapTriples frame) := by
  rw [save_frame_as_bmp]
  rw [read_bmp_of_header (bmp_header w ++ bmp_data w frame) (header_magic w _)
        (by rw [List.length_append, bmp_header_length]; omega)]
  rw [header_bitcount_field, header_offset_field, header_width_field, header_height_field,
      unpackLE_u16le, unpackLE_u32le, unpackLE_u32le]
  rw [Nat.mod_eq_of_lt hw, show (54 : Nat) % 4294967296 = 54 from by norm_num]
  rw [if_neg (by norm_num)]
  have hraw : readN (bmp_header w ++ bmp_data w frame) 54 ((w * 3 + 3) / 4 * 4 * w) =
      bmp_data w frame := by
    unfold readN
    rw [List.drop_left' (bmp_header_length w),
        List.take_of_length_le (le_of_eq (bmp_data_length w frame hlen))]
  rw [hraw]
  rw [decodeRows_eq (bmp_data w frame) ((w * 3 + 3) / 4 * 4) w
        (fun r => swapTriples ((frame.drop (r * w * 3)).take (w * 3)))
        (List.range w) ?_]
  · rw [show ((List.range w).map
          (fun r => swapTriples ((frame.drop (r * w * 3)).take (w * 3)))) =
        ((List.range w).map (fun r => (frame.drop (r * w * 3)).take (w * 3))).map swapTriples
        from by rw [List.map_map]; rfl]
    rw [flatten_map_swapTriples _ ?_]
    · rw [show ((List.range w).map (fun r => (frame.drop (r * w * 3)).take (w * 3))) =
          ((List.range w).map (fun r => (frame.drop (r * (w * 3))).take (w * 3))) from
        List.map_congr_left fun r _ => by rw [show r * (w * 3) = r * w * 3 by ring]]
      rw [flatten_slices w (w * 3) frame (by rw [hlen]; ring)]
    · intro row hrow
      obtain ⟨r, hr, rfl⟩ := List.mem_map.mp hrow
      rw [slice_length w frame r hlen (List.mem_range.mp hr)]
      omega
  · intro r hr
    have hmem := List.mem_range.mp hr
    have hread : readN (bmp_data w frame) (r * ((w * 3 + 3) / 4 * 4)) (w * 3) =
        (frame.drop (r * w * 3)).take (w * 3) := by
      rw [bmp_data_eq]
      rw [flatten_read _ ((w * 3 + 3) / 4 * 4) (w * 3) (padded_row_ge w) ?_ r
            (by simpa using hmem)]
      · rw [List.getD_eq_getElem?_getD]
        rw [List.getElem?_map, List.getElem?_range hmem]
        simp only [Option.map_some', Option.getD_some]
        exact List.take_left' (slice_length w frame r hlen hmem)
      · intro row hrow
        obtain ⟨i, hi, rfl⟩ := List.mem_map.mp hrow
        exact padded_row_length w frame i hlen (List.mem_range.mp hi)
    rw [hread]
    exact swapRow_eq _ (by rw [slice_length w frame r hlen hmem]; omega)


theorem swapRow_err : ∀ (xs : List Nat), xs.length % 3 ≠ 0 → swapRow xs = .error .valueError
  | [], h => by simp at h
  | [a], _ => rfl
  | [a, b], _ => rfl
  | a :: b :: c :: rest, h => by
    have ih := swapRow_err rest (by simp at h ⊢; omega)
    simp [swapRow, ih]
    rfl

theorem decodeRows_err (raw : List Nat) (rp w : Nat) :
    ∀ (idxs : List Nat), (∃ r ∈ idxs, (readN raw (r * rp) (w * 3)).length % 3 ≠ 0) →
    decodeRows raw rp w idxs = .error .valueError
  | [], h => by simp at h
  | r :: rs, h => by
    by_cases hr : (readN raw (r * rp) (w * 3)).length % 3 = 0
    · have hrs : ∃ q ∈ rs, (readN raw (q * rp) (w * 3)).length % 3 ≠ 0 := by
        rcases h with ⟨q, hq, hbad⟩
        rcases List.mem_cons.mp hq with rfl | hq'
        · exact absurd hr hbad
        · exact ⟨q, hq', hbad⟩
      rw [decodeRows, swapRow_eq _ hr, decodeRows_err raw rp w rs hrs]
      rfl
    · rw [decodeRows, swapRow_err _ hr]
      rfl

theorem read_bmp_pixel_ok (data : List Nat) (h1 : data.take 2 = [66, 77])
    (h2 : 54 ≤ data.length) (h3 : unpackLE (readN data 28 2) = 24)
    (hrows : ∀ r < unpackLE (readN data 22 4),
      (readN (readN data (unpackLE (readN data 10 4))
          ((unpackLE (readN data 18 4) * 3 + 3) / 4 * 4 * unpackLE (readN data 22 4)))
        (r * ((unpackLE (readN data 18 4) * 3 + 3) / 4 * 4))
        (unpackLE (readN data 18 4) * 3)).length % 3 = 0) :
    ∃ px, read_bmp data = .ok px := by
  rw [read_bmp_of_header data h1 h2, if_neg (by simp [h3])]
  refine ⟨_, decodeRows_eq _ _ _
    (fun r => swapTriples
      (readN (readN data (unpackLE (readN data 10 4))
          ((unpackLE (readN data 18 4) * 3 + 3) / 4 * 4 * unpackLE (readN data 22 4)))
        (r * ((unpackLE (readN data 18 4) * 3 + 3) / 4 * 4))
        (unpackLE (readN data 18 4) * 3)))
    (List.range (unpackLE (readN data 22 4))) ?_⟩
  intro r hr
  exact swapRow_eq _ (hrows r (List.mem_range.mp hr))

theorem read_bmp_pixel_err (data : List Nat) (h1 : data.take 2 = [66, 77])
    (h2 : 54 ≤ data.length) (h3 : unpackLE (readN data 28 2) = 24)
    (hbad : ¬ ∀ r < unpackLE (readN data 22 4),
      (readN (readN data (unpackLE (readN data 10 4))
          ((unpackLE (readN data 18 4) * 3 + 3) / 4 * 4 * unpackLE (readN data 22 4)))
        (r * ((unpackLE (readN data 18 4) * 3 + 3) / 4 * 4))
        (unpackLE (readN data 18 4) * 3)).length % 3 = 0) :
    read_bmp data = .error .valueError := by
  rw [read_bmp_of_header data h1 h2, if_neg (by simp [h3])]
  apply decodeRows_err
  push_neg at hbad
  obtain ⟨r, hr, hb⟩ := hbad
  exact ⟨r, List.mem_range.mpr hr, hb⟩

theorem read_bmp_wellformed_rows (data : List Nat)
    (hfull : unpackLE (readN data 10 4) +
      (unpackLE (readN data 18 4) * 3 + 3) / 4 * 4 * unpackLE (readN data 22 4) ≤
      data.length) :
    ∀ r < unpackLE (readN data 22 4),
      (readN (readN data (unpackLE (readN data 10 4))
          ((unpackLE (readN data 18 4) * 3 + 3) / 4 * 4 * unpackLE (readN data 22 4)))
        (r * ((unpackLE (readN data 18 4) * 3 + 3) / 4 * 4))
        (unpackLE (readN data 18 4) * 3)).length % 3 = 0 := by
  obtain ⟨off, hoff⟩ : ∃ x, x = unpackLE (readN data 10 4) := ⟨_, rfl⟩
  obtain ⟨wd, hwd⟩ : ∃ x, x = unpackLE (readN data 18 4) := ⟨_, rfl⟩
  obtain ⟨ht, hht⟩ : ∃ x, x = unpackLE (readN data 22 4) := ⟨_, rfl⟩
  rw [← hoff, ← hwd, ← hht] at hfull ⊢
  intro r hr
  have hge : wd * 3 ≤ (wd * 3 + 3) / 4 * 4 := padded_row_ge wd
  have h1m : (r + 1) * ((wd * 3 + 3) / 4 * 4) ≤ ht * ((wd * 3 + 3) / 4 * 4) :=
    Nat.mul_le_mul_right _ (by omega)
  have h2m : r * ((wd * 3 + 3) / 4 * 4) + (wd * 3 + 3) / 4 * 4 =
      (r + 1) * ((wd * 3 + 3) / 4 * 4) := by ring
  have h3m : (wd * 3 + 3) / 4 * 4 * ht = ht * ((wd * 3 + 3) / 4 * 4) := by ring
  rw [readN_length, readN_length]
  omega

/-- Claim C9 (corrected): an exact characterization of the decoder's
failures.  `read_bmp` fails with `struct.error` exactly when the magic
signature is valid but the header is truncated (fewer than 54 bytes).
It raises `ValueError` (the spec's `FormatError`) exactly when the
magic signature is absent, or the header is complete and the bit count
is not 24, or the header is complete with bit count 24 and some row
slice of the available pixel data has a length that is not a multiple
of 3 (pixel data truncated mid-pixel; a truncation on a 3-byte
boundary instead returns short data without raising).  Every
well-formed 24-bit input — complete header, valid magic, bit count 24
and complete pixel data — decodes without raising. -/
theorem claim_C9_decode_error_conditions :
    (∀ data : List Nat, read_bmp data = .error .structError ↔
        data.take 2 = [66, 77] ∧ data.length < 54) ∧
    (∀ data : List Nat, read_bmp data = .error .valueError ↔
        (data.take 2 ≠ [66, 77] ∨
         (54 ≤ data.length ∧ unpackLE (readN data 28 2) ≠ 24) ∨
         (54 ≤ data.length ∧ unpackLE (readN data 28 2) = 24 ∧
          ¬ ∀ r < unpackLE (readN data 22 4),
            (readN (readN data (unpackLE (readN data 10 4))
                ((unpackLE (readN data 18 4) * 3 + 3) / 4 * 4 * unpackLE (readN data 22 4)))
              (r * ((unpackLE (readN data 18 4) * 3 + 3) / 4 * 4))
              (unpackLE (readN data 18 4) * 3)).length % 3 = 0))) ∧
    (∀ data : List Nat, data.take 2 = [66, 77] → 54 ≤ data.length →
      unpackLE (readN data 28 2) = 24 →
      unpackLE (readN data 10 4) +
        (unpackLE (readN data 18 4) * 3 + 3) / 4 * 4 * unpackLE (readN data 22 4) ≤
        data.length →
      ∃ px, read_bmp data = .ok px) := by
  refine ⟨?_, ?_, ?_⟩
  · intro data
    constructor
    · intro hSE
      by_cases hm : data.take 2 = [66, 77]
      · by_cases hl : 54 ≤ data.length
        · exfalso
          by_cases hb : unpackLE (readN data 28 2) = 24
          · by_cases hrows : ∀ r < unpackLE (readN data 22 4),
                (readN (readN data (unpackLE (readN data 10 4))
                    ((unpackLE (readN data 18 4) * 3 + 3) / 4 * 4 *
                      unpackLE (readN data 22 4)))
                  (r * ((unpackLE (readN data 18 4) * 3 + 3) / 4 * 4))
                  (unpackLE (readN data 18 4) * 3)).length % 3 = 0
            · obtain ⟨px, hok⟩ := read_bmp_pixel_ok data hm hl hb hrows
              rw [hok] at hSE
              exact absurd hSE (by simp)
            · rw [read_bmp_pixel_err data hm hl hb hrows] at hSE
              exact absurd hSE (by simp)
          · rw [read_bmp_of_header data hm hl, if_pos hb] at hSE
            exact absurd hSE (by simp)
        · exact ⟨hm, by omega⟩
      · rw [read_bmp_bad_magic data hm] at hSE
        exact absurd hSE (by simp)
    · rintro ⟨hm, hl⟩
      exact read_bmp_short_header data hm hl
  · intro data
    constructor
    · intro hVE
      by_cases hm : data.take 2 = [66, 77]
      · by_cases hl : 54 ≤ data.length
        · by_cases hb : unpackLE (readN data 28 2) = 24
          · by_cases hrows : ∀ r < unpackLE (readN data 22 4),
                (readN (readN data (unpackLE (readN data 10 4))
                    ((unpackLE (readN data 18 4) * 3 + 3) / 4 * 4 *
                      unpackLE (readN data 22 4)))
                  (r * ((unpackLE (readN data 18 4) * 3 + 3) / 4 * 4))
                  (unpackLE (readN data 18 4) * 3)).length % 3 = 0
            · obtain ⟨px, hok⟩ := read_bmp_pixel_ok data hm hl hb hrows
              rw [hok] at hVE
              exact absurd hVE (by simp)
            · exact Or.inr (Or.inr ⟨hl, hb, hrows⟩)
          · exact Or.inr (Or.inl ⟨hl, hb⟩)
        · rw [read_bmp_short_header data hm (by omega)] at hVE
          exact absurd hVE (by simp)
      · exact Or.inl hm
    · rintro (hm | ⟨hl, hb⟩ | ⟨hl, hb, hrows⟩)
      · exact read_bmp_bad_magic data hm
      · by_cases hm : data.take 2 = [66, 77]
        · rw [read_bmp_of_header data hm hl, if_pos hb]
        · exact read_bmp_bad_magic data hm
      · by_cases hm : data.take 2 = [66, 77]
        · exact read_bmp_pixel_err data hm hl hb hrows
        · exact read_bmp_bad_magic data hm
  · intro data h1 h2 h3 hfull
    exact read_bmp_pixel_ok data h1 h2 h3 (read_bmp_wellformed_rows data hfull)

set_option maxRecDepth 10000 in
/-- Counterexample to C1 as stated: encoding then decoding the 2x2
all-red buffer (red = `[0, 0, 255]` in the pipeline's BGR pixel order)
returns the channel-swapped buffer, which differs from the input. -/
theorem claim_C1_counterexample :
    read_bmp (save_frame_as_bmp 2 [0, 0, 255, 0, 0, 255, 0, 0, 255, 0, 0, 255]) =
      .ok [255, 0, 0, 255, 0, 0, 255, 0, 0, 255, 0, 0] ∧
    ([255, 0, 0, 255, 0, 0, 255, 0, 0, 255, 0, 0] : List Nat) ≠
      [0, 0, 255, 0, 0, 255, 0, 0, 255, 0, 0, 255] := by
  constructor
  · decide
  · decide

/-- Witness for C1's amended statement at a 1x1 frame. -/
theorem claim_C1_roundtrip_swaps_channels_witness :
    read_bmp (save_frame_as_bmp 1 [1, 2, 3]) = .ok (swapTriples [1, 2, 3]) :=
  claim_C1_roundtrip_swaps_channels 1 [1, 2, 3] (by norm_num) (by norm_num)

set_option maxRecDepth 10000 in
/-- Counterexample to C9 as stated: a file with a valid magic, a
complete 54-byte header and bit count 24 — none of the claim's failure
conditions — still fails with `ValueError`, because its pixel data is
truncated to 4 bytes and `b, g, r = row_data[i:i+3]` unpacks a 1-byte
slice. -/
theorem claim_C9_counterexample :
    ([66, 77, 70, 0, 0, 0, 0, 0, 0, 0, 54, 0, 0, 0, 40, 0, 0, 0, 2, 0, 0, 0, 1, 0, 0, 0,
      1, 0, 24, 0, 0, 0, 0, 0, 8, 0, 0, 0, 19, 11, 0, 0, 19, 11, 0, 0, 0, 0, 0, 0, 0, 0,
      0, 0, 1, 2, 3, 4] : List Nat).take 2 = [66, 77] ∧
    54 ≤ ([66, 77, 70, 0, 0, 0, 0, 0, 0, 0, 54, 0, 0, 0, 40, 0, 0, 0, 2, 0, 0, 0, 1, 0,
      0, 0, 1, 0, 24, 0, 0, 0, 0, 0, 8, 0, 0, 0, 19, 11, 0, 0, 19, 11, 0, 0, 0, 0, 0, 0,
      0, 0, 0, 0, 1, 2, 3, 4] : List Nat).length ∧
    unpackLE (readN ([66, 77, 70, 0, 0, 0, 0, 0, 0, 0, 54, 0, 0, 0, 40, 0, 0, 0, 2, 0, 0,
      0, 1, 0, 0, 0, 1, 0, 24, 0, 0, 0, 0, 0, 8, 0, 0, 0, 19, 11, 0, 0, 19, 11, 0, 0, 0,
      0, 0, 0, 0, 0, 0, 0, 1, 2, 3, 4] : List Nat) 28 2) = 24 ∧
    read_bmp ([66, 77, 70, 0, 0, 0, 0, 0, 0, 0, 54, 0, 0, 0, 40, 0, 0, 0, 2, 0, 0, 0, 1,
      0, 0, 0, 1, 0, 24, 0, 0, 0, 0, 0, 8, 0, 0, 0, 19, 11, 0, 0, 19, 11, 0, 0, 0, 0, 0,
      0, 0, 0, 0, 0, 1, 2, 3, 4] : List Nat) = .error .valueError := by
  refine ⟨by decide, by decide, by decide, by decide⟩

set_option maxRecDepth 10000 in
/-- Witness for C9's amended statement: a concrete well-formed input
(the hypotheses of the well-formed clause discharged by computation)
decodes without raising. -/
theorem claim_C9_decode_error_conditions_witness :
    ∃ px, read_bmp ([66, 77] ++ List.replicate 26 0 ++ [24, 0] ++ List.replicate 24 0) =
      .ok px :=
  claim_C9_decode_error_conditions.2.2
    ([66, 77] ++ List.replicate 26 0 ++ [24, 0] ++ List.replicate 24 0)
    (by decide) (by decide) (by decide) (by decide)

end PurePhysics
